import Mathlib

/-!
# libxvc wrapper (libavcodec/libxvcenc.c, libavcodec/libxvcdec.c)

A shallow embedding of the two wrapper files.  C enumerations become inductive
types whose constructors carry the C enumerator names, C `int` and `int64_t`
become `Int`, the structs the wrapper reads or writes become structures, and
every answer of the codec library or of the framework (return codes, default
parameters, returned NAL units, allocated buffers) is an explicit argument.
-/

/-! ## Framework types shared by both files -/

/-- Pixel formats of `enum AVPixelFormat` that the two files name. -/
inductive AVPixelFormat
  | AV_PIX_FMT_NONE
  | AV_PIX_FMT_YUV420P
  | AV_PIX_FMT_YUVA420P
  | AV_PIX_FMT_YUV422P
  | AV_PIX_FMT_YUV440P
  | AV_PIX_FMT_YUV444P
  | AV_PIX_FMT_YUV420P10
  | AV_PIX_FMT_YUV422P10
  | AV_PIX_FMT_YUV440P10
  | AV_PIX_FMT_YUV444P10
  | AV_PIX_FMT_YUV420P12
  | AV_PIX_FMT_YUV422P12
  | AV_PIX_FMT_YUV440P12
  | AV_PIX_FMT_YUV444P12
  | AV_PIX_FMT_GBRP
  | AV_PIX_FMT_GBRP10
  | AV_PIX_FMT_GBRP12
  | AV_PIX_FMT_GRAY8
  | AV_PIX_FMT_GRAY10
  | AV_PIX_FMT_GRAY12
  deriving DecidableEq

open AVPixelFormat

/-- The `AVRational` struct: numerator and denominator. -/
structure AVRational where
  num : Int
  den : Int
  deriving DecidableEq

/-- The fields of `AVCodecContext` that the wrapper reads or writes. -/
structure AVCodecContext where
  thread_count : Int
  time_base : AVRational
  ticks_per_frame : Int
  width : Int
  height : Int
  pix_fmt : AVPixelFormat
  deriving DecidableEq

/-- Modelled from the spec: the error code `AVERROR_INVALIDDATA`, declared in
libavutil/error.h outside the two files; a negative constant, here with the
value of that header (the negated tag INDA). -/
def AVERROR_INVALIDDATA : Int := -1094995529

/-- Modelled from the spec: the error code `AVERROR_EXTERNAL`, declared in
libavutil/error.h outside the two files; a negative constant, here with the
value of that header (the negated tag EXT). -/
def AVERROR_EXTERNAL : Int := -542398533

/-- Modelled from the spec: the error code `AVERROR(ENOMEM)`, whose macro and
errno value are declared outside the two files; the negated errno value 12. -/
def AVERROR_ENOMEM : Int := -12

/-- Modelled from the spec: the error code `AVERROR(EINVAL)`, whose macro and
errno value are declared outside the two files; the negated errno value 22. -/
def AVERROR_EINVAL : Int := -22

/-! ## Decoder: libxvcdec.c -/

/-- Values of `xvc_dec_chroma_format`, an enumeration of the library header
xvcdec.h.  `set_pix_fmt` names 420, 422, 444 and ARGB; MONOCHROME is the
decoder value named like the encoder's monochrome format, and `other` is any
further value of the C enumeration.  Both reach the `default` label. -/
inductive xvc_dec_chroma_format
  | XVC_DEC_CHROMA_FORMAT_MONOCHROME
  | XVC_DEC_CHROMA_FORMAT_420
  | XVC_DEC_CHROMA_FORMAT_422
  | XVC_DEC_CHROMA_FORMAT_444
  | XVC_DEC_CHROMA_FORMAT_ARGB
  | other (code : Nat)
  deriving DecidableEq

open xvc_dec_chroma_format

/-- The fields of `xvc_dec_pic_stats` that `set_pix_fmt` reads. -/
structure xvc_dec_pic_stats where
  chroma_format : xvc_dec_chroma_format
  bitdepth : Int
  deriving DecidableEq

/-- The function `set_pix_fmt` of libxvcdec.c: the return value and the context
after the call. -/
def set_pix_fmt (avctx : AVCodecContext) (img : xvc_dec_pic_stats) : Int × AVCodecContext :=
  match img.chroma_format with
  | XVC_DEC_CHROMA_FORMAT_420 =>
    if img.bitdepth = 8 then (0, { avctx with pix_fmt := AV_PIX_FMT_YUV420P })
    else if img.bitdepth = 10 then (0, { avctx with pix_fmt := AV_PIX_FMT_YUV420P10 })
    else if img.bitdepth = 12 then (0, { avctx with pix_fmt := AV_PIX_FMT_YUV420P12 })
    else (AVERROR_INVALIDDATA, avctx)
  | XVC_DEC_CHROMA_FORMAT_422 =>
    if img.bitdepth = 8 then (0, { avctx with pix_fmt := AV_PIX_FMT_YUV422P })
    else if img.bitdepth = 10 then (0, { avctx with pix_fmt := AV_PIX_FMT_YUV422P10 })
    else if img.bitdepth = 12 then (0, { avctx with pix_fmt := AV_PIX_FMT_YUV422P12 })
    else (AVERROR_INVALIDDATA, avctx)
  | XVC_DEC_CHROMA_FORMAT_444 =>
    if img.bitdepth = 8 then (0, { avctx with pix_fmt := AV_PIX_FMT_YUV440P })
    else if img.bitdepth = 10 then (0, { avctx with pix_fmt := AV_PIX_FMT_YUV440P10 })
    else if img.bitdepth = 12 then (0, { avctx with pix_fmt := AV_PIX_FMT_YUV440P12 })
    else (AVERROR_INVALIDDATA, avctx)
  | XVC_DEC_CHROMA_FORMAT_ARGB =>
    if img.bitdepth = 8 then (0, { avctx with pix_fmt := AV_PIX_FMT_GBRP })
    else if img.bitdepth = 10 then (0, { avctx with pix_fmt := AV_PIX_FMT_GBRP10 })
    else if img.bitdepth = 12 then (0, { avctx with pix_fmt := AV_PIX_FMT_GBRP12 })
    else (AVERROR_INVALIDDATA, avctx)
  | _ => (AVERROR_INVALIDDATA, avctx)

/-- The entry points of the two library interfaces that the wrapper calls while
opening or closing a codec; a list of them records the calls made, in order. -/
inductive ApiCall
  | parameters_create
  | parameters_set_default
  | parameters_check
  | encoder_create
  | decoder_create
  | picture_create
  | parameters_destroy
  | encoder_destroy
  | decoder_destroy
  | picture_destroy
  deriving DecidableEq

/-- Return codes of the decoder library: `XVC_DEC_OK`, or any other code. -/
inductive xvc_dec_return_code
  | XVC_DEC_OK
  | XVC_DEC_NO_DECODED_PIC
  | other (code : Nat)
  deriving DecidableEq

/-- The field of `xvc_decoder_parameters` that the wrapper writes. -/
structure xvc_decoder_parameters where
  threads : Int
  deriving DecidableEq

/-- The answers of the decoder library to the calls made by `xvc_init`: the
function pointers of `xvc_decoder_api`.  A created object is `none` for NULL
and `some` of its address otherwise. -/
structure xvc_decoder_api where
  parameters_create : Option xvc_decoder_parameters
  parameters_set_default : xvc_decoder_parameters → xvc_dec_return_code × xvc_decoder_parameters
  parameters_check : xvc_decoder_parameters → xvc_dec_return_code
  decoder_create : xvc_decoder_parameters → Option Nat
  picture_create : Nat → Option Nat

/-- The struct `libxvcDecoderContext`; `params` holds the pointed-to struct. -/
structure libxvcDecoderContext where
  params : Option xvc_decoder_parameters
  decoder : Option Nat
  dec_pic : Option Nat
  deriving DecidableEq

/-- The function `xvc_dec_close`: destroys each object whose pointer is set,
appending the calls to the record. -/
def xvc_dec_close (ctx : libxvcDecoderContext) (calls : List ApiCall) : Int × List ApiCall :=
  let calls := if ctx.params.isSome then calls ++ [ApiCall.parameters_destroy] else calls
  let calls := if ctx.decoder.isSome then calls ++ [ApiCall.decoder_destroy] else calls
  let calls := if ctx.dec_pic.isSome then calls ++ [ApiCall.picture_destroy] else calls
  (0, calls)

/-- The result of an init function: return value, private context, calls made. -/
structure InitResult (Ctx : Type) where
  ret : Int
  ctx : Ctx
  calls : List ApiCall

/-- The function `xvc_init` of libxvcdec.c. -/
def xvc_init (api : xvc_decoder_api) (avctx : AVCodecContext) (ctx : libxvcDecoderContext) :
    InitResult libxvcDecoderContext :=
  let calls := [ApiCall.parameters_create]
  match api.parameters_create with
  | none => { ret := AVERROR_ENOMEM, ctx := { ctx with params := none }, calls := calls }
  | some fresh =>
    let ctx := { ctx with params := some fresh }
    let (ret, p) := api.parameters_set_default fresh
    let ctx := { ctx with params := some p }
    let calls := calls ++ [ApiCall.parameters_set_default]
    if ret ≠ xvc_dec_return_code.XVC_DEC_OK then
      { ret := AVERROR_EINVAL, ctx := ctx, calls := (xvc_dec_close ctx calls).2 }
    else
      let p := { p with threads :=
        if avctx.thread_count = 0 then -1
        else (if avctx.thread_count = 1 then 0 else avctx.thread_count) }
      let ctx := { ctx with params := some p }
      let ret := api.parameters_check p
      let calls := calls ++ [ApiCall.parameters_check]
      if ret ≠ xvc_dec_return_code.XVC_DEC_OK then
        { ret := AVERROR_EINVAL, ctx := ctx, calls := (xvc_dec_close ctx calls).2 }
      else
        let ctx := { ctx with decoder := api.decoder_create p }
        let calls := calls ++ [ApiCall.decoder_create]
        match ctx.decoder with
        | none => { ret := AVERROR_EINVAL, ctx := ctx, calls := (xvc_dec_close ctx calls).2 }
        | some dec =>
          let ctx := { ctx with dec_pic := api.picture_create dec }
          let calls := calls ++ [ApiCall.picture_create]
          match ctx.dec_pic with
          | none => { ret := AVERROR_EINVAL, ctx := ctx, calls := (xvc_dec_close ctx calls).2 }
          | some _ => { ret := 0, ctx := ctx, calls := calls }

/-- The array `xvc_csp_highbd` of libxvcdec.c. -/
def libxvcdec.xvc_csp_highbd : List AVPixelFormat :=
  [AV_PIX_FMT_YUV420P, AV_PIX_FMT_YUVA420P, AV_PIX_FMT_YUV422P, AV_PIX_FMT_YUV440P,
   AV_PIX_FMT_YUV444P, AV_PIX_FMT_YUV420P10, AV_PIX_FMT_YUV422P10, AV_PIX_FMT_YUV440P10,
   AV_PIX_FMT_YUV444P10, AV_PIX_FMT_YUV420P12, AV_PIX_FMT_YUV422P12, AV_PIX_FMT_YUV440P12,
   AV_PIX_FMT_YUV444P12, AV_PIX_FMT_GBRP, AV_PIX_FMT_GBRP10, AV_PIX_FMT_GBRP12,
   AV_PIX_FMT_NONE]

/-! ## Encoder: libxvcenc.c -/

/-- Values of `xvc_enc_chroma_format`, an enumeration of the library header
xvcenc.h: the four that `xvc_encode_init` names, and `other` for any further
value the library defaults may hold. -/
inductive xvc_enc_chroma_format
  | XVC_ENC_CHROMA_FORMAT_MONOCHROME
  | XVC_ENC_CHROMA_FORMAT_420
  | XVC_ENC_CHROMA_FORMAT_422
  | XVC_ENC_CHROMA_FORMAT_444
  | other (code : Nat)
  deriving DecidableEq

open xvc_enc_chroma_format

/-- Return codes of the encoder library: `XVC_ENC_OK`, or any other code. -/
inductive xvc_enc_return_code
  | XVC_ENC_OK
  | other (code : Nat)
  deriving DecidableEq

/-- The fields of `xvc_encoder_parameters` that the wrapper writes. -/
structure xvc_encoder_parameters where
  width : Int
  height : Int
  chroma_format : xvc_enc_chroma_format
  input_bitdepth : Int
  framerate : Int
  threads : Int
  qp : Int
  tune_mode : Int
  speed_mode : Int
  max_keypic_distance : Int
  closed_gop : Int
  num_ref_pics : Int
  internal_bitdepth : Int
  sub_gop_length : Int
  explicit_encoder_settings : Option String
  deriving DecidableEq

/-- The answers of the encoder library to the calls made by `xvc_encode_init`:
the function pointers of `xvc_encoder_api`. -/
structure xvc_encoder_api where
  parameters_create : Option xvc_encoder_parameters
  parameters_set_default : xvc_encoder_parameters → xvc_enc_return_code × xvc_encoder_parameters
  parameters_check : xvc_encoder_parameters → xvc_enc_return_code
  encoder_create : xvc_encoder_parameters → Option Nat
  picture_create : Nat → Option Nat

/-- The struct `libxvcEncoderContext`; `params` holds the pointed-to struct. -/
structure libxvcEncoderContext where
  params : Option xvc_encoder_parameters
  encoder : Option Nat
  rec_pic : Option Nat
  dts : Int
  qp : Int
  tune_mode : Int
  speed_mode : Int
  max_keypic_distance : Int
  closed_gop : Int
  num_ref_pics : Int
  internal_bitdepth : Int
  sub_gop_length : Int
  explicit_encoder_settings : Option String
  deriving DecidableEq

/-- The function `xvc_encode_close`. -/
def xvc_encode_close (ctx : libxvcEncoderContext) (calls : List ApiCall) : Int × List ApiCall :=
  let calls := if ctx.params.isSome then calls ++ [ApiCall.parameters_destroy] else calls
  let calls := if ctx.encoder.isSome then calls ++ [ApiCall.encoder_destroy] else calls
  let calls := if ctx.rec_pic.isSome then calls ++ [ApiCall.picture_destroy] else calls
  (0, calls)

/-- The first `switch (avctx->pix_fmt)` of `xvc_encode_init`: the assignment to
`params->chroma_format`.  The switch has no `default` label. -/
def switch_chroma_format (pix_fmt : AVPixelFormat) (p : xvc_encoder_parameters) :
    xvc_encoder_parameters :=
  match pix_fmt with
  | AV_PIX_FMT_YUV420P | AV_PIX_FMT_YUV420P10 | AV_PIX_FMT_YUV420P12 =>
    { p with chroma_format := XVC_ENC_CHROMA_FORMAT_420 }
  | AV_PIX_FMT_YUV422P | AV_PIX_FMT_YUV422P10 | AV_PIX_FMT_YUV422P12 =>
    { p with chroma_format := XVC_ENC_CHROMA_FORMAT_422 }
  | AV_PIX_FMT_GBRP | AV_PIX_FMT_GBRP10 | AV_PIX_FMT_GBRP12 =>
    { p with chroma_format := XVC_ENC_CHROMA_FORMAT_444 }
  | AV_PIX_FMT_YUV444P | AV_PIX_FMT_YUV444P10 | AV_PIX_FMT_YUV444P12 =>
    { p with chroma_format := XVC_ENC_CHROMA_FORMAT_444 }
  | AV_PIX_FMT_GRAY8 | AV_PIX_FMT_GRAY10 | AV_PIX_FMT_GRAY12 =>
    { p with chroma_format := XVC_ENC_CHROMA_FORMAT_MONOCHROME }
  | _ => p

/-- The second `switch (avctx->pix_fmt)` of `xvc_encode_init`: the assignment
to `params->input_bitdepth`.  The switch has no `default` label. -/
def switch_input_bitdepth (pix_fmt : AVPixelFormat) (p : xvc_encoder_parameters) :
    xvc_encoder_parameters :=
  match pix_fmt with
  | AV_PIX_FMT_YUV420P | AV_PIX_FMT_YUV422P | AV_PIX_FMT_GBRP | AV_PIX_FMT_YUV444P
  | AV_PIX_FMT_GRAY8 =>
    { p with input_bitdepth := 8 }
  | AV_PIX_FMT_YUV420P10 | AV_PIX_FMT_YUV422P10 | AV_PIX_FMT_GBRP10 | AV_PIX_FMT_YUV444P10
  | AV_PIX_FMT_GRAY10 =>
    { p with input_bitdepth := 10 }
  | AV_PIX_FMT_YUV420P12 | AV_PIX_FMT_YUV422P12 | AV_PIX_FMT_GBRP12 | AV_PIX_FMT_YUV444P12
  | AV_PIX_FMT_GRAY12 =>
    { p with input_bitdepth := 12 }
  | _ => p

/-- The nine `if` statements of `xvc_encode_init` that copy the private options
into the parameters. -/
def copy_options (ctx : libxvcEncoderContext) (p : xvc_encoder_parameters) :
    xvc_encoder_parameters :=
  let p := if ctx.qp ≥ 0 then { p with qp := ctx.qp } else p
  let p := if ctx.tune_mode ≥ 0 then { p with tune_mode := ctx.tune_mode } else p
  let p := if ctx.speed_mode ≥ 0 then { p with speed_mode := ctx.speed_mode } else p
  let p := if ctx.max_keypic_distance ≥ 0 then
    { p with max_keypic_distance := ctx.max_keypic_distance } else p
  let p := if ctx.closed_gop ≥ 0 then { p with closed_gop := ctx.closed_gop } else p
  let p := if ctx.num_ref_pics ≥ 0 then { p with num_ref_pics := ctx.num_ref_pics } else p
  let p := if ctx.internal_bitdepth ≥ 0 then
    { p with internal_bitdepth := ctx.internal_bitdepth } else p
  let p := if ctx.sub_gop_length ≥ 0 then { p with sub_gop_length := ctx.sub_gop_length } else p
  let p := if ctx.explicit_encoder_settings.isSome then
    { p with explicit_encoder_settings := ctx.explicit_encoder_settings } else p
  p

/-- The part of `xvc_encode_init` between `parameters_set_default` and
`parameters_check`: every assignment to a field of `ctx->params`.  The integer
division is the truncating division of C (a zero `time_base.num` is undefined
there). -/
def fill_parameters (avctx : AVCodecContext) (ctx : libxvcEncoderContext)
    (p : xvc_encoder_parameters) : xvc_encoder_parameters :=
  let p := { p with threads :=
    if avctx.thread_count = 0 then -1
    else (if avctx.thread_count = 1 then 0 else avctx.thread_count) }
  let p := { p with framerate :=
    (avctx.time_base.den.tdiv avctx.time_base.num) * avctx.ticks_per_frame }
  let p := { p with width := avctx.width }
  let p := { p with height := avctx.height }
  let p := switch_chroma_format avctx.pix_fmt p
  let p := switch_input_bitdepth avctx.pix_fmt p
  copy_options ctx p

/-- The function `xvc_encode_init` of libxvcenc.c. -/
def xvc_encode_init (api : xvc_encoder_api) (avctx : AVCodecContext)
    (ctx : libxvcEncoderContext) : InitResult libxvcEncoderContext :=
  let calls := [ApiCall.parameters_create]
  match api.parameters_create with
  | none => { ret := AVERROR_ENOMEM, ctx := { ctx with params := none }, calls := calls }
  | some fresh =>
    let ctx := { ctx with params := some fresh }
    let (ret, p) := api.parameters_set_default fresh
    let ctx := { ctx with params := some p }
    let calls := calls ++ [ApiCall.parameters_set_default]
    if ret ≠ xvc_enc_return_code.XVC_ENC_OK then
      { ret := AVERROR_EINVAL, ctx := ctx, calls := (xvc_encode_close ctx calls).2 }
    else
      let p := fill_parameters avctx ctx p
      let ctx := { ctx with params := some p }
      let ret := api.parameters_check p
      let calls := calls ++ [ApiCall.parameters_check]
      if ret ≠ xvc_enc_return_code.XVC_ENC_OK then
        { ret := AVERROR_EINVAL, ctx := ctx, calls := calls }
      else
        let ctx := { ctx with encoder := api.encoder_create p }
        let calls := calls ++ [ApiCall.encoder_create]
        match ctx.encoder with
        | none => { ret := AVERROR_EINVAL, ctx := ctx, calls := (xvc_encode_close ctx calls).2 }
        | some enc =>
          let ctx := { ctx with rec_pic := api.picture_create enc }
          let calls := calls ++ [ApiCall.picture_create]
          match ctx.rec_pic with
          | none => { ret := AVERROR_EINVAL, ctx := ctx, calls := (xvc_encode_close ctx calls).2 }
          | some _ => { ret := 0, ctx := ctx, calls := calls }

/-- The array `xvc_csp_highbd` of libxvcenc.c. -/
def libxvcenc.xvc_csp_highbd : List AVPixelFormat :=
  [AV_PIX_FMT_YUV420P, AV_PIX_FMT_YUVA420P, AV_PIX_FMT_YUV422P, AV_PIX_FMT_YUV440P,
   AV_PIX_FMT_YUV444P, AV_PIX_FMT_YUV420P10, AV_PIX_FMT_YUV422P10, AV_PIX_FMT_YUV440P10,
   AV_PIX_FMT_YUV444P10, AV_PIX_FMT_YUV420P12, AV_PIX_FMT_YUV422P12, AV_PIX_FMT_YUV440P12,
   AV_PIX_FMT_YUV444P12, AV_PIX_FMT_GBRP, AV_PIX_FMT_GBRP10, AV_PIX_FMT_GBRP12,
   AV_PIX_FMT_NONE]

/-- The value of `INT_MAX` for the 32-bit `int` of C. -/
def INT_MAX : Int := 2147483647

/-- One integer entry of the `options` table: the field it sets, its default,
minimum and maximum. -/
structure AVOption where
  field : libxvcEncoderContext → Int
  default_val : Int
  min : Int
  max : Int

/-- The eight `AV_OPT_TYPE_INT` rows of the `options` table of libxvcenc.c, in
table order (qp, tune, speed-mode, max-keypic-distance, closed-gop,
num-ref-pics, internal-bitdepth, sub-gop-length). -/
def libxvcenc.options : List AVOption :=
  [ { field := (fun c => c.qp), default_val := -1, min := -1, max := 64 },
    { field := (fun c => c.tune_mode), default_val := -1, min := -1, max := INT_MAX },
    { field := (fun c => c.speed_mode), default_val := -1, min := -1, max := INT_MAX },
    { field := (fun c => c.max_keypic_distance), default_val := -1, min := -1, max := INT_MAX },
    { field := (fun c => c.closed_gop), default_val := -1, min := -1, max := INT_MAX },
    { field := (fun c => c.num_ref_pics), default_val := -1, min := -1, max := INT_MAX },
    { field := (fun c => c.internal_bitdepth), default_val := -1, min := -1, max := 16 },
    { field := (fun c => c.sub_gop_length), default_val := -1, min := -1, max := 64 } ]

/-- The private context as the framework hands it to `xvc_encode_init`: zeroed
memory with every option of the `options` table at its declared default (the
string option `explicit-encoder-settings` defaults to NULL). -/
def default_context : libxvcEncoderContext :=
  { params := none, encoder := none, rec_pic := none, dts := 0,
    qp := -1, tune_mode := -1, speed_mode := -1, max_keypic_distance := -1,
    closed_gop := -1, num_ref_pics := -1, internal_bitdepth := -1, sub_gop_length := -1,
    explicit_encoder_settings := none }

/-- A byte; only copied, never computed with. -/
abbrev uint8_t := Nat

/-- The fields of `xvc_enc_nal_unit` that the wrapper reads; `bytes` is the
memory behind the pointer of that name, `nal_unit_type` is `stats.nal_unit_type`. -/
structure xvc_enc_nal_unit where
  bytes : List uint8_t
  size : Int
  nal_unit_type : Int
  user_data : Int
  deriving DecidableEq

/-- The fields of `AVPacket` that the wrapper writes; `data` is the buffer
behind the pointer of that name. -/
structure AVPacket where
  data : List uint8_t
  size : Int
  pts : Int
  dts : Int
  flags : Nat
  deriving DecidableEq

/-- The field of `AVFrame` that the encoder wrapper reads itself (the planes and
line sizes are only handed on to the library). -/
structure AVFrame where
  pts : Int
  deriving DecidableEq

/-- Modelled from the spec: the flag bit `AV_PKT_FLAG_KEY`, declared in
avcodec.h outside the two files; the lowest bit. -/
def AV_PKT_FLAG_KEY : Nat := 1

/-- The values of `enum AVPictureType` that the wrapper stores. -/
inductive AVPictureType
  | AV_PICTURE_TYPE_NONE
  | AV_PICTURE_TYPE_I
  | AV_PICTURE_TYPE_P
  deriving DecidableEq

/-- Reduction of an integer to the range of a 32-bit `int` (two-complement wrap). -/
def wrap_int (x : Int) : Int := (x + 2147483648) % 4294967296 - 2147483648

/-- The first loop of `xvc_encode_frame`: `payload += nal_units[i].size` for every
unit, in `int` arithmetic. -/
def payload_loop (nal_units : List xvc_enc_nal_unit) (payload : Int) : Int :=
  match nal_units with
  | [] => payload
  | n :: rest => payload_loop rest (wrap_int (payload + n.size))

/-- What the framework answers to one `ff_alloc_packet` request: `error` is
`some e` when it fails (with return value `-(e+1)`), and `content` gives the
bytes a fresh buffer happens to hold. -/
structure AllocAnswer where
  error : Option Nat
  content : Nat → uint8_t

/-- Modelled from the spec: the framework function `ff_alloc_packet`, which the
two files only call.  It either fails with a negative return value and leaves
the packet alone, or returns 0 with `pkt->data` a buffer of `size` bytes and
`pkt->size = size`. -/
def ff_alloc_packet (a : AllocAnswer) (pkt : AVPacket) (size : Int) : Int × AVPacket :=
  match a.error with
  | some e => (-((e : Int) + 1), pkt)
  | none => (0, { pkt with data := (List.range size.toNat).map a.content, size := size })

/-- The call `memcpy(dst, src, n)` into the buffer `buf`, with `dst` an offset
into `buf`: `none` when it would read or write outside the two memory blocks. -/
def memcpy (buf : List uint8_t) (dst : Int) (src : List uint8_t) (n : Int) :
    Option (List uint8_t) :=
  if 0 ≤ dst ∧ 0 ≤ n ∧ dst + n ≤ buf.length ∧ n ≤ src.length then
    some (buf.take dst.toNat ++ src.take n.toNat ++ buf.drop (dst + n).toNat)
  else none

/-- The variables the second loop of `xvc_encode_frame` updates: the packet,
the write pointer `dst` (an offset into `pkt->data`) and
`avctx->coded_frame->pict_type`. -/
structure CopyState where
  pkt : AVPacket
  dst : Int
  pict_type : AVPictureType
  deriving DecidableEq

/-- The second loop of `xvc_encode_frame`: copy every unit to `dst`, advance
`dst`, set the key flag and the picture type. -/
def copy_loop (nal_units : List xvc_enc_nal_unit) (st : CopyState) : Option CopyState :=
  match nal_units with
  | [] => some st
  | n :: rest =>
    match memcpy st.pkt.data st.dst n.bytes n.size with
    | none => none
    | some data =>
      let pkt := { st.pkt with data := data }
      let dst := st.dst + n.size
      let pkt := if n.nal_unit_type = 16 then
        { pkt with flags := pkt.flags ||| AV_PKT_FLAG_KEY } else pkt
      let pict_type :=
        if n.nal_unit_type = 0 ∨ n.nal_unit_type = 1 then AVPictureType.AV_PICTURE_TYPE_I
        else if n.nal_unit_type ≥ 2 ∨ n.nal_unit_type ≤ 5 then AVPictureType.AV_PICTURE_TYPE_P
        else st.pict_type
      copy_loop rest { pkt := pkt, dst := dst, pict_type := pict_type }

/-- The expression assigned to `pkt->pts` in `xvc_encode_frame`, with every
read of `nal_units[i]` checked against the length of the array: `none` when an
index outside the array is read. -/
def select_pts (nal_units : List xvc_enc_nal_unit) : Option Int :=
  match nal_units[0]? with
  | none => none
  | some n0 =>
    if n0.user_data ≠ 0 ∨ nal_units.length = 1 then some n0.user_data
    else
      match nal_units[1]? with
      | none => none
      | some n1 => some n1.user_data

/-- The inputs of one call of `xvc_encode_frame` besides the private context:
the frame (`none` for NULL, a flush), the packet handed in, the picture type
stored so far, the answer of the library entry point called
(`encoder_encode2` or `encoder_flush`: return code and the array of
`num_nal_units` units), and the answer of the packet allocation. -/
structure FrameCall where
  pic : Option AVFrame
  pkt : AVPacket
  pict_type : AVPictureType
  xvc_ret : xvc_enc_return_code
  nal_units : List xvc_enc_nal_unit
  alloc : AllocAnswer

/-- What one call of `xvc_encode_frame` leaves behind: the return value, whether
it stored 1 in `*got_packet`, the packet, the private context and the picture type. -/
structure FrameResult where
  ret : Int
  got_packet : Bool
  pkt : AVPacket
  ctx : libxvcEncoderContext
  pict_type : AVPictureType
  deriving DecidableEq

/-- The function `xvc_encode_frame` of libxvcenc.c; `none` is a memory fault
(a read or write outside an array or buffer). -/
def xvc_encode_frame (ctx : libxvcEncoderContext) (c : FrameCall) : Option FrameResult :=
  if c.pic.isSome ∧ c.xvc_ret ≠ xvc_enc_return_code.XVC_ENC_OK then
    some { ret := AVERROR_EXTERNAL, got_packet := false, pkt := c.pkt, ctx := ctx,
           pict_type := c.pict_type }
  else
    let num_nal_units := c.nal_units.length
    if num_nal_units = 0 then
      some { ret := 0, got_packet := false, pkt := c.pkt, ctx := ctx, pict_type := c.pict_type }
    else
      let payload := payload_loop c.nal_units 0
      let (ret, pkt) := ff_alloc_packet c.alloc c.pkt payload
      if ret < 0 then
        some { ret := ret, got_packet := false, pkt := pkt, ctx := ctx, pict_type := c.pict_type }
      else
        match copy_loop c.nal_units { pkt := pkt, dst := 0, pict_type := c.pict_type } with
        | none => none
        | some st =>
          match select_pts c.nal_units with
          | none => none
          | some pts =>
            let pkt := { st.pkt with pts := pts }
            let pkt := { pkt with dts :=
              ctx.dts - (if ctx.sub_gop_length ≤ 0 then 16 else ctx.sub_gop_length) }
            let ctx := { ctx with dts := ctx.dts + 1 }
            some { ret := 0, got_packet := true, pkt := pkt, ctx := ctx,
                   pict_type := st.pict_type }

/-- A run of `xvc_encode_frame` over a sequence of calls on one context: the
context after the last call and the packets of the calls that stored 1 in
`*got_packet`, in order; `none` when a call faults. -/
def encode_frames (ctx : libxvcEncoderContext) (calls : List FrameCall) :
    Option (libxvcEncoderContext × List AVPacket) :=
  match calls with
  | [] => some (ctx, [])
  | c :: rest =>
    match xvc_encode_frame ctx c with
    | none => none
    | some r =>
      match encode_frames r.ctx rest with
      | none => none
      | some (ctx, pkts) => some (ctx, if r.got_packet then r.pkt :: pkts else pkts)

/-- The decoder chroma format with the same name as an encoder chroma format
(`XVC_ENC_CHROMA_FORMAT_x` read as `XVC_DEC_CHROMA_FORMAT_x`). -/
def like_named : xvc_enc_chroma_format → xvc_dec_chroma_format
  | XVC_ENC_CHROMA_FORMAT_MONOCHROME => XVC_DEC_CHROMA_FORMAT_MONOCHROME
  | XVC_ENC_CHROMA_FORMAT_420 => XVC_DEC_CHROMA_FORMAT_420
  | XVC_ENC_CHROMA_FORMAT_422 => XVC_DEC_CHROMA_FORMAT_422
  | XVC_ENC_CHROMA_FORMAT_444 => XVC_DEC_CHROMA_FORMAT_444
  | xvc_enc_chroma_format.other code => xvc_dec_chroma_format.other code

/-- The round trip of a pixel format: `xvc_encode_init` on the encoder side,
then `set_pix_fmt` on the decoder context `dctx` with the like-named chroma
format and the input bit depth of the encoder parameters.  It is `none` when
the encoder has no parameters. -/
def round_trip (api : xvc_encoder_api) (avctx : AVCodecContext) (ctx : libxvcEncoderContext)
    (dctx : AVCodecContext) : Option (Int × AVCodecContext) :=
  match (xvc_encode_init api avctx ctx).ctx.params with
  | none => none
  | some p =>
    some (set_pix_fmt dctx
      { chroma_format := like_named p.chroma_format, bitdepth := p.input_bitdepth })

/-- The sum of the `size` fields of an array of NAL units. -/
def total_size (l : List xvc_enc_nal_unit) : Int := (l.map (fun n => n.size)).sum

/-- The bytes of one NAL unit: the first `size` bytes behind its `bytes` pointer. -/
def nal_bytes (n : xvc_enc_nal_unit) : List uint8_t := n.bytes.take n.size.toNat

/-- An array of NAL units as the library hands it over: every size is
non-negative and backed by at least that many bytes, and the sizes add up to
at most `INT_MAX`. -/
abbrev nal_units_ok (l : List xvc_enc_nal_unit) : Prop :=
  (∀ n ∈ l, 0 ≤ n.size ∧ n.size ≤ n.bytes.length) ∧ total_size l ≤ INT_MAX

/-- The DTS offset of a context: `sub_gop_length` when it is positive, 16 otherwise. -/
def dts_offset (ctx : libxvcEncoderContext) : Int :=
  if ctx.sub_gop_length > 0 then ctx.sub_gop_length else 16

/-! ## Concrete inputs used to evaluate the functions -/

/-- A decoder-side context before any picture was decoded. -/
def avctx0 : AVCodecContext :=
  { thread_count := 0, time_base := { num := 1, den := 25 }, ticks_per_frame := 1,
    width := 16, height := 16, pix_fmt := AV_PIX_FMT_NONE }

/-- Encoder parameters as a library could default them. -/
def params0 : xvc_encoder_parameters :=
  { width := 0, height := 0, chroma_format := XVC_ENC_CHROMA_FORMAT_420, input_bitdepth := 8,
    framerate := 0, threads := 0, qp := 32, tune_mode := 0, speed_mode := 1,
    max_keypic_distance := 640, closed_gop := 0, num_ref_pics := 2, internal_bitdepth := 8,
    sub_gop_length := 16, explicit_encoder_settings := none }

/-- An encoder library that accepts every request. -/
def enc_api_ok : xvc_encoder_api :=
  { parameters_create := some params0,
    parameters_set_default := fun _ => (xvc_enc_return_code.XVC_ENC_OK, params0),
    parameters_check := fun _ => xvc_enc_return_code.XVC_ENC_OK,
    encoder_create := fun _ => some 1,
    picture_create := fun _ => some 2 }

/-- An encoder library whose `parameters_check` rejects the parameters. -/
def enc_api_check_fails : xvc_encoder_api :=
  { enc_api_ok with parameters_check := fun _ => xvc_enc_return_code.other 1 }

/-- A decoder library that accepts every request. -/
def dec_api_ok : xvc_decoder_api :=
  { parameters_create := some { threads := 0 },
    parameters_set_default := fun _ => (xvc_dec_return_code.XVC_DEC_OK, { threads := 0 }),
    parameters_check := fun _ => xvc_dec_return_code.XVC_DEC_OK,
    decoder_create := fun _ => some 1,
    picture_create := fun _ => some 2 }

/-- A decoder library whose `parameters_check` rejects the parameters. -/
def dec_api_check_fails : xvc_decoder_api :=
  { dec_api_ok with parameters_check := fun _ => xvc_dec_return_code.other 1 }

/-- A zeroed decoder context. -/
def dec_context0 : libxvcDecoderContext := { params := none, decoder := none, dec_pic := none }

/-- A key-picture NAL unit of three bytes without a time stamp. -/
def nal_a : xvc_enc_nal_unit :=
  { bytes := [1, 2, 3], size := 3, nal_unit_type := 16, user_data := 0 }

/-- A NAL unit of two bytes with time stamp 7. -/
def nal_b : xvc_enc_nal_unit :=
  { bytes := [4, 5], size := 2, nal_unit_type := 2, user_data := 7 }

/-- An empty packet. -/
def packet0 : AVPacket := { data := [], size := 0, pts := 0, dts := 0, flags := 0 }

/-- A call with a frame for which the library returns `nal_a` and `nal_b` and
the allocation succeeds with a zero-filled buffer. -/
def call_ab : FrameCall :=
  { pic := some { pts := 7 }, pkt := packet0,
    pict_type := AVPictureType.AV_PICTURE_TYPE_NONE,
    xvc_ret := xvc_enc_return_code.XVC_ENC_OK, nal_units := [nal_a, nal_b],
    alloc := { error := none, content := fun _ => 0 } }

/-- A call with a frame for which the library returns no NAL unit. -/
def call_none : FrameCall := { call_ab with nal_units := [] }

/-! ## Shared lemmas -/

theorem xvc_encode_init_params (api : xvc_encoder_api) (avctx : AVCodecContext)
    (ctx : libxvcEncoderContext) (fresh p0 : xvc_encoder_parameters)
    (h1 : api.parameters_create = some fresh)
    (h2 : api.parameters_set_default fresh = (xvc_enc_return_code.XVC_ENC_OK, p0)) :
    (xvc_encode_init api avctx ctx).ctx.params = some (fill_parameters avctx ctx p0) := by
  unfold xvc_encode_init
  simp only [h1, h2]
  split_ifs <;> (try split) <;> (try split) <;> simp_all <;> rfl

theorem xvc_init_params (api : xvc_decoder_api) (avctx : AVCodecContext)
    (ctx : libxvcDecoderContext) (fresh p0 : xvc_decoder_parameters)
    (h1 : api.parameters_create = some fresh)
    (h2 : api.parameters_set_default fresh = (xvc_dec_return_code.XVC_DEC_OK, p0)) :
    (xvc_init api avctx ctx).ctx.params = some { p0 with threads :=
      if avctx.thread_count = 0 then -1
      else (if avctx.thread_count = 1 then 0 else avctx.thread_count) } := by
  unfold xvc_init
  simp only [h1, h2]
  split_ifs <;> (try split) <;> (try split) <;> simp_all

theorem copy_options_eq (ctx : libxvcEncoderContext) (p : xvc_encoder_parameters) :
    copy_options ctx p =
      { p with
        qp := if ctx.qp ≥ 0 then ctx.qp else p.qp
        tune_mode := if ctx.tune_mode ≥ 0 then ctx.tune_mode else p.tune_mode
        speed_mode := if ctx.speed_mode ≥ 0 then ctx.speed_mode else p.speed_mode
        max_keypic_distance := if ctx.max_keypic_distance ≥ 0 then ctx.max_keypic_distance else p.max_keypic_distance
        closed_gop := if ctx.closed_gop ≥ 0 then ctx.closed_gop else p.closed_gop
        num_ref_pics := if ctx.num_ref_pics ≥ 0 then ctx.num_ref_pics else p.num_ref_pics
        internal_bitdepth := if ctx.internal_bitdepth ≥ 0 then ctx.internal_bitdepth else p.internal_bitdepth
        sub_gop_length := if ctx.sub_gop_length ≥ 0 then ctx.sub_gop_length else p.sub_gop_length
        explicit_encoder_settings :=
          if ctx.explicit_encoder_settings.isSome then ctx.explicit_encoder_settings
          else p.explicit_encoder_settings } := by
  unfold copy_options
  lift_lets
  extract_lets p1 p2 p3 p4 p5 p6 p7 p8 p9
  have h1 : p1 =
      { p with
        qp := if ctx.qp ≥ 0 then ctx.qp else p.qp } := by
    simp only [p1]; split <;> rfl
  have h2 : p2 =
      { p with
        qp := if ctx.qp ≥ 0 then ctx.qp else p.qp
        tune_mode := if ctx.tune_mode ≥ 0 then ctx.tune_mode else p.tune_mode } := by
    simp only [p2, h1]; split <;> rfl
  have h3 : p3 =
      { p with
        qp := if ctx.qp ≥ 0 then ctx.qp else p.qp
        tune_mode := if ctx.tune_mode ≥ 0 then ctx.tune_mode else p.tune_mode
        speed_mode := if ctx.speed_mode ≥ 0 then ctx.speed_mode else p.speed_mode } := by
    simp only [p3, h2]; split <;> rfl
  have h4 : p4 =
      { p with
        qp := if ctx.qp ≥ 0 then ctx.qp else p.qp
        tune_mode := if ctx.tune_mode ≥ 0 then ctx.tune_mode else p.tune_mode
        speed_mode := if ctx.speed_mode ≥ 0 then ctx.speed_mode else p.speed_mode
        max_keypic_distance := if ctx.max_keypic_distance ≥ 0 then ctx.max_keypic_distance else p.max_keypic_distance } := by
    simp only [p4, h3]; split <;> rfl
  have h5 : p5 =
      { p with
        qp := if ctx.qp ≥ 0 then ctx.qp else p.qp
        tune_mode := if ctx.tune_mode ≥ 0 then ctx.tune_mode else p.tune_mode
        speed_mode := if ctx.speed_mode ≥ 0 then ctx.speed_mode else p.speed_mode
        max_keypic_distance := if ctx.max_keypic_distance ≥ 0 then ctx.max_keypic_distance else p.max_keypic_distance
        closed_gop := if ctx.closed_gop ≥ 0 then ctx.closed_gop else p.closed_gop } := by
    simp only [p5, h4]; split <;> rfl
  have h6 : p6 =
      { p with
        qp := if ctx.qp ≥ 0 then ctx.qp else p.qp
        tune_mode := if ctx.tune_mode ≥ 0 then ctx.tune_mode else p.tune_mode
        speed_mode := if ctx.speed_mode ≥ 0 then ctx.speed_mode else p.speed_mode
        max_keypic_distance := if ctx.max_keypic_distance ≥ 0 then ctx.max_keypic_distance else p.max_keypic_distance
        closed_gop := if ctx.closed_gop ≥ 0 then ctx.closed_gop else p.closed_gop
        num_ref_pics := if ctx.num_ref_pics ≥ 0 then ctx.num_ref_pics else p.num_ref_pics } := by
    simp only [p6, h5]; split <;> rfl
  have h7 : p7 =
      { p with
        qp := if ctx.qp ≥ 0 then ctx.qp else p.qp
        tune_mode := if ctx.tune_mode ≥ 0 then ctx.tune_mode else p.tune_mode
        speed_mode := if ctx.speed_mode ≥ 0 then ctx.speed_mode else p.speed_mode
        max_keypic_distance := if ctx.max_keypic_distance ≥ 0 then ctx.max_keypic_distance else p.max_keypic_distance
        closed_gop := if ctx.closed_gop ≥ 0 then ctx.closed_gop else p.closed_gop
        num_ref_pics := if ctx.num_ref_pics ≥ 0 then ctx.num_ref_pics else p.num_ref_pics
        internal_bitdepth := if ctx.internal_bitdepth ≥ 0 then ctx.internal_bitdepth else p.internal_bitdepth } := by
    simp only [p7, h6]; split <;> rfl
  have h8 : p8 =
      { p with
        qp := if ctx.qp ≥ 0 then ctx.qp else p.qp
        tune_mode := if ctx.tune_mode ≥ 0 then ctx.tune_mode else p.tune_mode
        speed_mode := if ctx.speed_mode ≥ 0 then ctx.speed_mode else p.speed_mode
        max_keypic_distance := if ctx.max_keypic_distance ≥ 0 then ctx.max_keypic_distance else p.max_keypic_distance
        closed_gop := if ctx.closed_gop ≥ 0 then ctx.closed_gop else p.closed_gop
        num_ref_pics := if ctx.num_ref_pics ≥ 0 then ctx.num_ref_pics else p.num_ref_pics
        internal_bitdepth := if ctx.internal_bitdepth ≥ 0 then ctx.internal_bitdepth else p.internal_bitdepth
        sub_gop_length := if ctx.sub_gop_length ≥ 0 then ctx.sub_gop_length else p.sub_gop_length } := by
    simp only [p8, h7]; split <;> rfl
  have h9 : p9 =
      { p with
        qp := if ctx.qp ≥ 0 then ctx.qp else p.qp
        tune_mode := if ctx.tune_mode ≥ 0 then ctx.tune_mode else p.tune_mode
        speed_mode := if ctx.speed_mode ≥ 0 then ctx.speed_mode else p.speed_mode
        max_keypic_distance := if ctx.max_keypic_distance ≥ 0 then ctx.max_keypic_distance else p.max_keypic_distance
        closed_gop := if ctx.closed_gop ≥ 0 then ctx.closed_gop else p.closed_gop
        num_ref_pics := if ctx.num_ref_pics ≥ 0 then ctx.num_ref_pics else p.num_ref_pics
        internal_bitdepth := if ctx.internal_bitdepth ≥ 0 then ctx.internal_bitdepth else p.internal_bitdepth
        sub_gop_length := if ctx.sub_gop_length ≥ 0 then ctx.sub_gop_length else p.sub_gop_length
        explicit_encoder_settings :=
          if ctx.explicit_encoder_settings.isSome then ctx.explicit_encoder_settings
          else p.explicit_encoder_settings } := by
    simp only [p9, h8]; split <;> rfl
  exact h9

theorem copy_options_frame (ctx : libxvcEncoderContext) (p : xvc_encoder_parameters) :
    (copy_options ctx p).threads = p.threads
    ∧ (copy_options ctx p).chroma_format = p.chroma_format
    ∧ (copy_options ctx p).input_bitdepth = p.input_bitdepth := by
  rw [copy_options_eq]
  exact ⟨rfl, rfl, rfl⟩

theorem fill_parameters_threads (avctx : AVCodecContext) (ctx : libxvcEncoderContext)
    (p0 : xvc_encoder_parameters) :
    (fill_parameters avctx ctx p0).threads =
      if avctx.thread_count = 0 then -1
      else (if avctx.thread_count = 1 then 0 else avctx.thread_count) := by
  simp only [fill_parameters, (copy_options_frame _ _).1]
  simp only [switch_chroma_format, switch_input_bitdepth]
  cases avctx.pix_fmt <;> rfl

theorem fill_parameters_chroma (avctx : AVCodecContext) (ctx : libxvcEncoderContext)
    (p0 : xvc_encoder_parameters) :
    (fill_parameters avctx ctx p0).chroma_format
      = (switch_chroma_format avctx.pix_fmt p0).chroma_format
    ∧ (fill_parameters avctx ctx p0).input_bitdepth
      = (switch_input_bitdepth avctx.pix_fmt p0).input_bitdepth := by
  simp only [fill_parameters, (copy_options_frame _ _).2.1, (copy_options_frame _ _).2.2]
  simp only [switch_chroma_format, switch_input_bitdepth]
  cases avctx.pix_fmt <;> exact ⟨rfl, rfl⟩

theorem fill_parameters_options (avctx : AVCodecContext) (ctx : libxvcEncoderContext)
    (p0 : xvc_encoder_parameters) :
    let p := fill_parameters avctx ctx p0
    p.qp = (if ctx.qp ≥ 0 then ctx.qp else p0.qp)
    ∧ p.tune_mode = (if ctx.tune_mode ≥ 0 then ctx.tune_mode else p0.tune_mode)
    ∧ p.speed_mode = (if ctx.speed_mode ≥ 0 then ctx.speed_mode else p0.speed_mode)
    ∧ p.max_keypic_distance =
        (if ctx.max_keypic_distance ≥ 0 then ctx.max_keypic_distance else p0.max_keypic_distance)
    ∧ p.closed_gop = (if ctx.closed_gop ≥ 0 then ctx.closed_gop else p0.closed_gop)
    ∧ p.num_ref_pics = (if ctx.num_ref_pics ≥ 0 then ctx.num_ref_pics else p0.num_ref_pics)
    ∧ p.internal_bitdepth =
        (if ctx.internal_bitdepth ≥ 0 then ctx.internal_bitdepth else p0.internal_bitdepth)
    ∧ p.sub_gop_length =
        (if ctx.sub_gop_length ≥ 0 then ctx.sub_gop_length else p0.sub_gop_length)
    ∧ p.explicit_encoder_settings =
        (if ctx.explicit_encoder_settings.isSome then ctx.explicit_encoder_settings
         else p0.explicit_encoder_settings) := by
  simp only [fill_parameters, copy_options_eq]
  simp only [switch_chroma_format, switch_input_bitdepth]
  cases avctx.pix_fmt <;> exact ⟨rfl, rfl, rfl, rfl, rfl, rfl, rfl, rfl, rfl⟩

/-! ## The decoder's pixel format -/

/-- C1: the code departs from the claim at chroma format 444.  For bit depths
8, 10 and 12, `set_pix_fmt` returns 0 and stores the 4:4:0 formats YUV440P,
YUV440P10 and YUV440P12 where the claim names YUV444P, YUV444P10 and
YUV444P12; for 420, 422 and ARGB it stores the formats the claim names. -/
theorem C1_set_pix_fmt_444_stores_440 (avctx : AVCodecContext) :
    (set_pix_fmt avctx { chroma_format := XVC_DEC_CHROMA_FORMAT_444, bitdepth := 8 }
        = (0, { avctx with pix_fmt := AV_PIX_FMT_YUV440P })
      ∧ set_pix_fmt avctx { chroma_format := XVC_DEC_CHROMA_FORMAT_444, bitdepth := 10 }
        = (0, { avctx with pix_fmt := AV_PIX_FMT_YUV440P10 })
      ∧ set_pix_fmt avctx { chroma_format := XVC_DEC_CHROMA_FORMAT_444, bitdepth := 12 }
        = (0, { avctx with pix_fmt := AV_PIX_FMT_YUV440P12 }))
    ∧ ((set_pix_fmt avctx { chroma_format := XVC_DEC_CHROMA_FORMAT_444, bitdepth := 8 }).2.pix_fmt
        ≠ AV_PIX_FMT_YUV444P
      ∧ (set_pix_fmt avctx { chroma_format := XVC_DEC_CHROMA_FORMAT_444, bitdepth := 10 }).2.pix_fmt
        ≠ AV_PIX_FMT_YUV444P10
      ∧ (set_pix_fmt avctx { chroma_format := XVC_DEC_CHROMA_FORMAT_444, bitdepth := 12 }).2.pix_fmt
        ≠ AV_PIX_FMT_YUV444P12)
    ∧ (set_pix_fmt avctx { chroma_format := XVC_DEC_CHROMA_FORMAT_420, bitdepth := 8 }
        = (0, { avctx with pix_fmt := AV_PIX_FMT_YUV420P })
      ∧ set_pix_fmt avctx { chroma_format := XVC_DEC_CHROMA_FORMAT_420, bitdepth := 10 }
        = (0, { avctx with pix_fmt := AV_PIX_FMT_YUV420P10 })
      ∧ set_pix_fmt avctx { chroma_format := XVC_DEC_CHROMA_FORMAT_420, bitdepth := 12 }
        = (0, { avctx with pix_fmt := AV_PIX_FMT_YUV420P12 })
      ∧ set_pix_fmt avctx { chroma_format := XVC_DEC_CHROMA_FORMAT_422, bitdepth := 8 }
        = (0, { avctx with pix_fmt := AV_PIX_FMT_YUV422P })
      ∧ set_pix_fmt avctx { chroma_format := XVC_DEC_CHROMA_FORMAT_422, bitdepth := 10 }
        = (0, { avctx with pix_fmt := AV_PIX_FMT_YUV422P10 })
      ∧ set_pix_fmt avctx { chroma_format := XVC_DEC_CHROMA_FORMAT_422, bitdepth := 12 }
        = (0, { avctx with pix_fmt := AV_PIX_FMT_YUV422P12 })
      ∧ set_pix_fmt avctx { chroma_format := XVC_DEC_CHROMA_FORMAT_ARGB, bitdepth := 8 }
        = (0, { avctx with pix_fmt := AV_PIX_FMT_GBRP })
      ∧ set_pix_fmt avctx { chroma_format := XVC_DEC_CHROMA_FORMAT_ARGB, bitdepth := 10 }
        = (0, { avctx with pix_fmt := AV_PIX_FMT_GBRP10 })
      ∧ set_pix_fmt avctx { chroma_format := XVC_DEC_CHROMA_FORMAT_ARGB, bitdepth := 12 }
        = (0, { avctx with pix_fmt := AV_PIX_FMT_GBRP12 })) := by
  refine ⟨⟨rfl, rfl, rfl⟩, ⟨?_, ?_, ?_⟩, ⟨rfl, rfl, rfl, rfl, rfl, rfl, rfl, rfl, rfl⟩⟩ <;>
    simp [set_pix_fmt]

/-- C3: `set_pix_fmt` returns 0 exactly when the chroma format is one of 420,
422, 444, ARGB and the bit depth is one of 8, 10, 12; in every other case it
returns `AVERROR_INVALIDDATA` and the context, `pix_fmt` included, is the one
handed in; the return value is always one of these two. -/
theorem C3_set_pix_fmt_return (avctx : AVCodecContext) (img : xvc_dec_pic_stats) :
    ((set_pix_fmt avctx img).1 = 0 ↔
      ((img.chroma_format = XVC_DEC_CHROMA_FORMAT_420
          ∨ img.chroma_format = XVC_DEC_CHROMA_FORMAT_422
          ∨ img.chroma_format = XVC_DEC_CHROMA_FORMAT_444
          ∨ img.chroma_format = XVC_DEC_CHROMA_FORMAT_ARGB)
        ∧ (img.bitdepth = 8 ∨ img.bitdepth = 10 ∨ img.bitdepth = 12)))
    ∧ ((set_pix_fmt avctx img).1 = 0
        ∨ set_pix_fmt avctx img = (AVERROR_INVALIDDATA, avctx))
    ∧ AVERROR_INVALIDDATA ≠ 0 := by
  obtain ⟨cf, bd⟩ := img
  have hne : AVERROR_INVALIDDATA ≠ 0 := by decide
  refine ⟨?_, ?_, hne⟩
  · cases cf <;> simp only [set_pix_fmt] <;> (try split_ifs) <;> simp_all
  · cases cf <;> simp only [set_pix_fmt] <;> (try split_ifs) <;> simp

/-- C2 as stated fails: for AV_PIX_FMT_GRAY8 the encoder stores the chroma
format MONOCHROME with input bit depth 8, and `set_pix_fmt` on the like-named
decoder format does not return 0 with `pix_fmt` set to GRAY8. -/
theorem C2_round_trip_gray8_fails :
    round_trip enc_api_ok { avctx0 with pix_fmt := AV_PIX_FMT_GRAY8 } default_context avctx0
      ≠ some (0, { avctx0 with pix_fmt := AV_PIX_FMT_GRAY8 }) := by
  decide

/-- C2 amended: when the library creates and defaults the parameters, the
round trip returns 0 and the original pixel format for YUV420P and YUV422P and
their 10- and 12-bit variants; for GRAY8, GRAY10 and GRAY12 `set_pix_fmt`
returns `AVERROR_INVALIDDATA` and leaves the decoder context as it was; for
GBRP, GBRP10 and GBRP12 the encoder stores chroma format 444 and the decoder
does not come back to the original format. -/
theorem C2_round_trip_amended (api : xvc_encoder_api) (avctx : AVCodecContext)
    (ctx : libxvcEncoderContext) (dctx : AVCodecContext) (fresh p0 : xvc_encoder_parameters)
    (h1 : api.parameters_create = some fresh)
    (h2 : api.parameters_set_default fresh = (xvc_enc_return_code.XVC_ENC_OK, p0)) :
    (avctx.pix_fmt ∈ [AV_PIX_FMT_YUV420P, AV_PIX_FMT_YUV420P10, AV_PIX_FMT_YUV420P12,
                      AV_PIX_FMT_YUV422P, AV_PIX_FMT_YUV422P10, AV_PIX_FMT_YUV422P12] →
      round_trip api avctx ctx dctx = some (0, { dctx with pix_fmt := avctx.pix_fmt }))
    ∧ (avctx.pix_fmt ∈ [AV_PIX_FMT_GRAY8, AV_PIX_FMT_GRAY10, AV_PIX_FMT_GRAY12] →
      round_trip api avctx ctx dctx = some (AVERROR_INVALIDDATA, dctx))
    ∧ (avctx.pix_fmt ∈ [AV_PIX_FMT_GBRP, AV_PIX_FMT_GBRP10, AV_PIX_FMT_GBRP12] →
      (∃ p, (xvc_encode_init api avctx ctx).ctx.params = some p
          ∧ p.chroma_format = XVC_ENC_CHROMA_FORMAT_444)
      ∧ ∃ r, round_trip api avctx ctx dctx = some r ∧ r.2.pix_fmt ≠ avctx.pix_fmt) := by
  have hp := xvc_encode_init_params api avctx ctx fresh p0 h1 h2
  have hc := fill_parameters_chroma avctx ctx p0
  simp only [round_trip, hp, hc.1, hc.2]
  refine ⟨?_, ?_, ?_⟩ <;> intro hm <;>
    simp only [List.mem_cons, List.mem_singleton, List.not_mem_nil, or_false] at hm
  · rcases hm with h | h | h | h | h | h <;> rw [h] <;> rfl
  · rcases hm with h | h | h <;> rw [h] <;> rfl
  · rcases hm with h | h | h <;>
      exact ⟨⟨_, rfl, by rw [hc.1, h]; rfl⟩, _, rfl, by
        rw [h]; simp [set_pix_fmt, switch_chroma_format, switch_input_bitdepth, like_named]⟩

/-- A concrete instance of the amended round trip: YUV420P10 comes back. -/
theorem C2_round_trip_amended_witness :
    round_trip enc_api_ok { avctx0 with pix_fmt := AV_PIX_FMT_YUV420P10 } default_context avctx0
      = some (0, { avctx0 with pix_fmt := AV_PIX_FMT_YUV420P10 }) :=
  (C2_round_trip_amended enc_api_ok { avctx0 with pix_fmt := AV_PIX_FMT_YUV420P10 }
    default_context avctx0 params0 params0 rfl rfl).1 (by decide)

/-! ## Opening the codecs -/

/-- C7: the code departs from the claim in `xvc_encode_init`.  After a
successful `parameters_create` and `parameters_set_default`, a rejecting
`parameters_check` makes `xvc_encode_init` return `AVERROR(EINVAL)` having
made exactly the calls `parameters_create`, `parameters_set_default`,
`parameters_check`: `xvc_encode_close` is not run and the parameters stay
allocated.  Every other error return of `xvc_encode_init`, and every error
return of the decoder's `xvc_init`, comes after `parameters_destroy`. -/
theorem C7_encode_init_check_failure_skips_close
    (api : xvc_encoder_api) (dapi : xvc_decoder_api) (avctx : AVCodecContext)
    (ctx : libxvcEncoderContext) (dctx : libxvcDecoderContext)
    (fresh : xvc_encoder_parameters) (dfresh : xvc_decoder_parameters)
    (h1 : api.parameters_create = some fresh) (d1 : dapi.parameters_create = some dfresh) :
    (∀ p0, api.parameters_set_default fresh = (xvc_enc_return_code.XVC_ENC_OK, p0) →
        api.parameters_check (fill_parameters avctx ctx p0) ≠ xvc_enc_return_code.XVC_ENC_OK →
        (xvc_encode_init api avctx ctx).ret = AVERROR_EINVAL
        ∧ (xvc_encode_init api avctx ctx).calls
            = [ApiCall.parameters_create, ApiCall.parameters_set_default,
               ApiCall.parameters_check]
        ∧ ApiCall.parameters_destroy ∉ (xvc_encode_init api avctx ctx).calls)
    ∧ ((xvc_encode_init api avctx ctx).ret ≠ 0 →
        ApiCall.parameters_destroy ∈ (xvc_encode_init api avctx ctx).calls
        ∨ (xvc_encode_init api avctx ctx).calls
            = [ApiCall.parameters_create, ApiCall.parameters_set_default,
               ApiCall.parameters_check])
    ∧ ((xvc_init dapi avctx dctx).ret ≠ 0 →
        ApiCall.parameters_destroy ∈ (xvc_init dapi avctx dctx).calls) := by
  refine ⟨?_, ?_, ?_⟩
  · intro p0 h2 h3
    have h3t : api.parameters_check
        (fill_parameters avctx { ctx with params := some p0 } p0)
          ≠ xvc_enc_return_code.XVC_ENC_OK := h3
    unfold xvc_encode_init
    simp only [h1, h2]
    simp [h3t]
  · unfold xvc_encode_init
    simp only [h1]
    rcases api.parameters_set_default fresh with ⟨ret, p⟩
    split_ifs <;> (try split) <;> (try split) <;> simp_all [xvc_encode_close] <;>
      split_ifs <;> simp [AVERROR_EINVAL]
  · unfold xvc_init
    simp only [d1]
    rcases dapi.parameters_set_default dfresh with ⟨ret, p⟩
    split_ifs <;> (try split) <;> (try split) <;> simp_all [xvc_dec_close] <;>
      split_ifs <;> simp [AVERROR_EINVAL]

/-- A concrete instance: with a library whose `parameters_check` fails, the
encoder returns `AVERROR(EINVAL)` after three calls, none a destroy call. -/
theorem C7_encode_init_check_failure_witness :
    (xvc_encode_init enc_api_check_fails avctx0 default_context).ret = AVERROR_EINVAL
    ∧ (xvc_encode_init enc_api_check_fails avctx0 default_context).calls
        = [ApiCall.parameters_create, ApiCall.parameters_set_default, ApiCall.parameters_check]
    ∧ ApiCall.parameters_destroy
        ∉ (xvc_encode_init enc_api_check_fails avctx0 default_context).calls :=
  (C7_encode_init_check_failure_skips_close enc_api_check_fails dec_api_check_fails avctx0
    default_context dec_context0 params0 { threads := 0 } rfl rfl).1 params0 rfl (by decide)

/-- C8: when each library creates and defaults its parameters, the encoder's
`xvc_encode_init` and the decoder's `xvc_init` store the same `threads` value
for a thread count `n`: -1 for `n = 0`, 0 for `n = 1`, and `n` otherwise; and
two thread counts `n, m ≥ 0` that give the same `threads` value are equal. -/
theorem C8_thread_count_translation
    (api : xvc_encoder_api) (dapi : xvc_decoder_api)
    (ctx : libxvcEncoderContext) (dctx : libxvcDecoderContext)
    (fresh p0 : xvc_encoder_parameters) (dfresh dp0 : xvc_decoder_parameters)
    (h1 : api.parameters_create = some fresh)
    (h2 : api.parameters_set_default fresh = (xvc_enc_return_code.XVC_ENC_OK, p0))
    (d1 : dapi.parameters_create = some dfresh)
    (d2 : dapi.parameters_set_default dfresh = (xvc_dec_return_code.XVC_DEC_OK, dp0)) :
    (∀ avctx : AVCodecContext, ∃ pe pd,
        (xvc_encode_init api avctx ctx).ctx.params = some pe
        ∧ (xvc_init dapi avctx dctx).ctx.params = some pd
        ∧ pe.threads = pd.threads
        ∧ (avctx.thread_count = 0 → pe.threads = -1)
        ∧ (avctx.thread_count = 1 → pe.threads = 0)
        ∧ (avctx.thread_count ≠ 0 → avctx.thread_count ≠ 1 → pe.threads = avctx.thread_count))
    ∧ (∀ a b : AVCodecContext, 0 ≤ a.thread_count → 0 ≤ b.thread_count →
        (xvc_encode_init api a ctx).ctx.params.map (fun p => p.threads)
          = (xvc_encode_init api b ctx).ctx.params.map (fun p => p.threads) →
        a.thread_count = b.thread_count) := by
  constructor
  · intro avctx
    refine ⟨_, _, xvc_encode_init_params api avctx ctx fresh p0 h1 h2,
      xvc_init_params dapi avctx dctx dfresh dp0 d1 d2, ?_, ?_, ?_, ?_⟩
    · rw [fill_parameters_threads]
    · intro h; rw [fill_parameters_threads, if_pos h]
    · intro h; rw [fill_parameters_threads]; simp [h]
    · intro h h'; rw [fill_parameters_threads, if_neg h, if_neg h']
  · intro a b ha hb
    rw [xvc_encode_init_params api a ctx fresh p0 h1 h2,
      xvc_encode_init_params api b ctx fresh p0 h1 h2]
    simp only [Option.map_some', Option.some.injEq, fill_parameters_threads]
    split_ifs <;> intro h <;> first | omega | exact h.elim

/-- A concrete instance: with thread count 1 both wrappers store `threads = 0`. -/
theorem C8_thread_count_translation_witness :
    ∃ pe pd,
      (xvc_encode_init enc_api_ok { avctx0 with thread_count := 1 } default_context).ctx.params
        = some pe
      ∧ (xvc_init dec_api_ok { avctx0 with thread_count := 1 } dec_context0).ctx.params = some pd
      ∧ pe.threads = pd.threads ∧ pe.threads = 0 := by
  obtain ⟨pe, pd, he, hd, hs, _, h1, _⟩ :=
    (C8_thread_count_translation enc_api_ok dec_api_ok default_context dec_context0
      params0 params0 { threads := 0 } { threads := 0 } rfl rfl rfl rfl).1
      { avctx0 with thread_count := 1 }
  exact ⟨pe, pd, he, hd, hs, h1 rfl⟩

/-- C9: each of the eight integer rows of the option table has default -1 and
minimum -1, and the default context holds these defaults and a NULL
`explicit_encoder_settings`.  When the library creates and defaults the
parameters to `p0`, `xvc_encode_init` leaves in each of the eight matching
parameter fields the option value when that value is `≥ 0` and the value of
`p0` otherwise, and in `explicit_encoder_settings` the option string when it is
non-null and the value of `p0` otherwise; with the default context all nine
fields keep the values of `p0`. -/
theorem C9_options_override_when_set
    (api : xvc_encoder_api) (avctx : AVCodecContext) (ctx : libxvcEncoderContext)
    (fresh p0 : xvc_encoder_parameters)
    (h1 : api.parameters_create = some fresh)
    (h2 : api.parameters_set_default fresh = (xvc_enc_return_code.XVC_ENC_OK, p0)) :
    (∀ o ∈ libxvcenc.options,
        o.default_val = -1 ∧ o.min = -1 ∧ o.field default_context = o.default_val)
    ∧ default_context.explicit_encoder_settings = none
    ∧ (∃ p, (xvc_encode_init api avctx ctx).ctx.params = some p
        ∧ p.qp = (if ctx.qp ≥ 0 then ctx.qp else p0.qp)
        ∧ p.tune_mode = (if ctx.tune_mode ≥ 0 then ctx.tune_mode else p0.tune_mode)
        ∧ p.speed_mode = (if ctx.speed_mode ≥ 0 then ctx.speed_mode else p0.speed_mode)
        ∧ p.max_keypic_distance =
            (if ctx.max_keypic_distance ≥ 0 then ctx.max_keypic_distance
             else p0.max_keypic_distance)
        ∧ p.closed_gop = (if ctx.closed_gop ≥ 0 then ctx.closed_gop else p0.closed_gop)
        ∧ p.num_ref_pics = (if ctx.num_ref_pics ≥ 0 then ctx.num_ref_pics else p0.num_ref_pics)
        ∧ p.internal_bitdepth =
            (if ctx.internal_bitdepth ≥ 0 then ctx.internal_bitdepth else p0.internal_bitdepth)
        ∧ p.sub_gop_length =
            (if ctx.sub_gop_length ≥ 0 then ctx.sub_gop_length else p0.sub_gop_length)
        ∧ p.explicit_encoder_settings =
            (if ctx.explicit_encoder_settings.isSome then ctx.explicit_encoder_settings
             else p0.explicit_encoder_settings))
    ∧ (∃ p, (xvc_encode_init api avctx default_context).ctx.params = some p
        ∧ p.qp = p0.qp ∧ p.tune_mode = p0.tune_mode ∧ p.speed_mode = p0.speed_mode
        ∧ p.max_keypic_distance = p0.max_keypic_distance ∧ p.closed_gop = p0.closed_gop
        ∧ p.num_ref_pics = p0.num_ref_pics ∧ p.internal_bitdepth = p0.internal_bitdepth
        ∧ p.sub_gop_length = p0.sub_gop_length
        ∧ p.explicit_encoder_settings = p0.explicit_encoder_settings) := by
  refine ⟨by decide, rfl, ⟨_, xvc_encode_init_params api avctx ctx fresh p0 h1 h2,
    fill_parameters_options avctx ctx p0⟩,
    ⟨_, xvc_encode_init_params api avctx default_context fresh p0 h1 h2, ?_⟩⟩
  exact fill_parameters_options avctx default_context p0

/-- A concrete instance: with `qp = 30` set and the other options at their
defaults, the parameters hold `qp = 30` and the library default elsewhere. -/
theorem C9_options_override_when_set_witness :
    ∃ p, (xvc_encode_init enc_api_ok avctx0 { default_context with qp := 30 }).ctx.params = some p
      ∧ p.qp = 30 ∧ p.tune_mode = params0.tune_mode := by
  obtain ⟨p, hp, hq, ht, _⟩ :=
    (C9_options_override_when_set enc_api_ok avctx0 { default_context with qp := 30 }
      params0 params0 rfl rfl).2.2.1
  exact ⟨p, hp, hq, ht⟩

/-- C10: the code departs from the claim.  AV_PIX_FMT_YUVA420P,
AV_PIX_FMT_YUV440P, AV_PIX_FMT_YUV440P10 and AV_PIX_FMT_YUV440P12 are entries of
the encoder's `xvc_csp_highbd` other than the terminator, and for each of them
neither switch of `xvc_encode_init` assigns: `chroma_format` and
`input_bitdepth` keep whatever `parameters_set_default` stored. -/
theorem C10_advertised_formats_not_translated
    (api : xvc_encoder_api) (avctx : AVCodecContext) (ctx : libxvcEncoderContext)
    (fresh p0 : xvc_encoder_parameters)
    (h1 : api.parameters_create = some fresh)
    (h2 : api.parameters_set_default fresh = (xvc_enc_return_code.XVC_ENC_OK, p0))
    (hf : avctx.pix_fmt ∈ [AV_PIX_FMT_YUVA420P, AV_PIX_FMT_YUV440P, AV_PIX_FMT_YUV440P10,
                           AV_PIX_FMT_YUV440P12]) :
    avctx.pix_fmt ∈ libxvcenc.xvc_csp_highbd
    ∧ avctx.pix_fmt ≠ AV_PIX_FMT_NONE
    ∧ ∃ p, (xvc_encode_init api avctx ctx).ctx.params = some p
        ∧ p.chroma_format = p0.chroma_format ∧ p.input_bitdepth = p0.input_bitdepth := by
  have hc := fill_parameters_chroma avctx ctx p0
  simp only [List.mem_cons, List.mem_singleton, List.not_mem_nil, or_false] at hf
  refine ⟨?_, ?_, _, xvc_encode_init_params api avctx ctx fresh p0 h1 h2, ?_, ?_⟩
  · rcases hf with h | h | h | h <;> rw [h] <;> decide
  · rcases hf with h | h | h | h <;> rw [h] <;> decide
  · rw [hc.1]; rcases hf with h | h | h | h <;> rw [h] <;> rfl
  · rw [hc.2]; rcases hf with h | h | h | h <;> rw [h] <;> rfl

/-- A concrete instance: with AV_PIX_FMT_YUV440P the parameters keep the
chroma format and input bit depth of the library defaults. -/
theorem C10_advertised_formats_not_translated_witness :
    ∃ p, (xvc_encode_init enc_api_ok { avctx0 with pix_fmt := AV_PIX_FMT_YUV440P }
            default_context).ctx.params = some p
      ∧ p.chroma_format = params0.chroma_format ∧ p.input_bitdepth = params0.input_bitdepth :=
  (C10_advertised_formats_not_translated enc_api_ok { avctx0 with pix_fmt := AV_PIX_FMT_YUV440P }
    default_context params0 params0 rfl rfl (by decide)).2.2

/-! ## Encoding a frame -/

theorem wrap_int_id (x : Int) (h1 : -2147483648 ≤ x) (h2 : x ≤ 2147483647) :
    wrap_int x = x := by
  unfold wrap_int; omega

theorem total_size_cons (n : xvc_enc_nal_unit) (l : List xvc_enc_nal_unit) :
    total_size (n :: l) = n.size + total_size l := by
  simp [total_size]

theorem total_size_nonneg (l : List xvc_enc_nal_unit) (h : ∀ n ∈ l, 0 ≤ n.size) :
    0 ≤ total_size l := by
  induction l with
  | nil => simp [total_size]
  | cons n rest ih =>
    rw [total_size_cons]
    have h0 := h n (List.mem_cons_self _ _)
    have h1 := ih (fun m hm => h m (List.mem_cons_of_mem _ hm))
    omega

theorem payload_loop_eq (l : List xvc_enc_nal_unit) :
    ∀ acc : Int, (∀ n ∈ l, 0 ≤ n.size) → 0 ≤ acc → acc + total_size l ≤ INT_MAX →
      payload_loop l acc = acc + total_size l := by
  induction l with
  | nil => intro acc _ _ _; simp [payload_loop, total_size]
  | cons n rest ih =>
    intro acc h ha hs
    have h0 := h n (List.mem_cons_self _ _)
    have hr : ∀ m ∈ rest, 0 ≤ m.size := fun m hm => h m (List.mem_cons_of_mem _ hm)
    have h1 := total_size_nonneg rest hr
    rw [total_size_cons] at hs
    unfold INT_MAX at hs
    have hw : wrap_int (acc + n.size) = acc + n.size := wrap_int_id _ (by omega) (by omega)
    rw [payload_loop, hw, ih (acc + n.size) hr (by omega) (by unfold INT_MAX; omega),
      total_size_cons]
    omega

theorem copy_loop_spec (l : List xvc_enc_nal_unit) :
    ∀ st : CopyState, (∀ n ∈ l, 0 ≤ n.size ∧ n.size ≤ n.bytes.length) → 0 ≤ st.dst →
      st.dst + total_size l ≤ st.pkt.data.length →
      ∃ st1, copy_loop l st = some st1
        ∧ st1.pkt.data = st.pkt.data.take st.dst.toNat ++ (l.map nal_bytes).flatten
            ++ st.pkt.data.drop (st.dst + total_size l).toNat
        ∧ st1.pkt.size = st.pkt.size := by
  induction l with
  | nil =>
    intro st _ hd _
    refine ⟨st, rfl, ?_, rfl⟩
    simp [total_size]
  | cons n rest ih =>
    intro st h hd hlen
    obtain ⟨hn0, hn1⟩ := h n (List.mem_cons_self _ _)
    have hr : ∀ m ∈ rest, 0 ≤ m.size ∧ m.size ≤ m.bytes.length :=
      fun m hm => h m (List.mem_cons_of_mem _ hm)
    have hR := total_size_nonneg rest (fun m hm => (hr m hm).1)
    rw [total_size_cons] at hlen
    have hmem : memcpy st.pkt.data st.dst n.bytes n.size
        = some (st.pkt.data.take st.dst.toNat ++ n.bytes.take n.size.toNat
            ++ st.pkt.data.drop (st.dst + n.size).toNat) := by
      unfold memcpy
      rw [if_pos ⟨hd, hn0, by omega, hn1⟩]
    have hlen1 : (st.pkt.data.take st.dst.toNat ++ n.bytes.take n.size.toNat
        ++ st.pkt.data.drop (st.dst + n.size).toNat).length = st.pkt.data.length := by
      simp only [List.length_append, List.length_take, List.length_drop]
      omega
    have key := ih
      { pkt := if n.nal_unit_type = 16 then
          { data := st.pkt.data.take st.dst.toNat ++ n.bytes.take n.size.toNat
              ++ st.pkt.data.drop (st.dst + n.size).toNat,
            size := st.pkt.size, pts := st.pkt.pts, dts := st.pkt.dts,
            flags := st.pkt.flags ||| AV_PKT_FLAG_KEY }
          else
          { data := st.pkt.data.take st.dst.toNat ++ n.bytes.take n.size.toNat
              ++ st.pkt.data.drop (st.dst + n.size).toNat,
            size := st.pkt.size, pts := st.pkt.pts, dts := st.pkt.dts,
            flags := st.pkt.flags },
        dst := st.dst + n.size,
        pict_type :=
          if n.nal_unit_type = 0 ∨ n.nal_unit_type = 1 then AVPictureType.AV_PICTURE_TYPE_I
          else if n.nal_unit_type ≥ 2 ∨ n.nal_unit_type ≤ 5 then AVPictureType.AV_PICTURE_TYPE_P
          else st.pict_type }
      hr (by show 0 ≤ st.dst + n.size; omega)
      (by
        show st.dst + n.size + total_size rest ≤ _
        split_ifs <;> simp only [hlen1] <;> omega)
    obtain ⟨st1, hc, hdata, hsize⟩ := key
    refine ⟨st1, ?_, ?_, ?_⟩
    · rw [copy_loop, hmem]
      exact hc
    · simp only [apply_ite AVPacket.data, ite_self] at hdata
      have la : (st.pkt.data.take st.dst.toNat ++ n.bytes.take n.size.toNat).length
          = (st.dst + n.size).toNat := by
        simp only [List.length_append, List.length_take]; omega
      have e2 : (st.dst + n.size + total_size rest).toNat
          = (st.dst + n.size).toNat + (total_size rest).toNat := by omega
      have e3 : (st.dst + total_size (n :: rest)).toNat
          = (st.dst + n.size).toNat + (total_size rest).toNat := by
        rw [total_size_cons]; omega
      have hA : List.take (st.dst + n.size).toNat
          (st.pkt.data.take st.dst.toNat ++ n.bytes.take n.size.toNat
            ++ st.pkt.data.drop (st.dst + n.size).toNat)
          = st.pkt.data.take st.dst.toNat ++ n.bytes.take n.size.toNat :=
        List.take_left' la
      have hC : List.drop ((st.dst + n.size).toNat + (total_size rest).toNat)
          (st.pkt.data.take st.dst.toNat ++ n.bytes.take n.size.toNat
            ++ st.pkt.data.drop (st.dst + n.size).toNat)
          = List.drop ((st.dst + n.size).toNat + (total_size rest).toNat) st.pkt.data := by
        rw [(List.drop_drop (total_size rest).toNat (st.dst + n.size).toNat _).symm,
          List.drop_left' la, List.drop_drop]
      rw [hdata, e2, e3, hA, hC]
      simp only [List.map_cons, List.flatten_cons, nal_bytes, List.append_assoc]
    · rw [hsize]; split_ifs <;> rfl

theorem flatten_slice {α : Type} (L : List (List α)) :
    ∀ (i : Nat) (hi : i < L.length),
      (L.flatten.drop ((L.take i).map List.length).sum).take (L[i]).length = L[i] := by
  induction L with
  | nil => intro i hi; simp at hi
  | cons l0 rest ih =>
    intro i hi
    cases i with
    | zero => simp
    | succ k =>
      have hk : k < rest.length := by simpa using hi
      simp only [List.take_succ_cons, List.map_cons, List.sum_cons, List.flatten_cons,
        List.getElem_cons_succ]
      rw [(List.drop_drop ((rest.take k).map List.length).sum l0.length _).symm,
        List.drop_left' rfl]
      exact ih k hk

theorem nal_bytes_length (n : xvc_enc_nal_unit) (h0 : 0 ≤ n.size)
    (h1 : n.size ≤ n.bytes.length) : (nal_bytes n).length = n.size.toNat := by
  simp only [nal_bytes, List.length_take]; omega

theorem nal_bytes_total (l : List xvc_enc_nal_unit)
    (h : ∀ n ∈ l, 0 ≤ n.size ∧ n.size ≤ n.bytes.length) :
    ((l.map nal_bytes).map List.length).sum = (total_size l).toNat := by
  induction l with
  | nil => simp [total_size]
  | cons n rest ih =>
    obtain ⟨hn0, hn1⟩ := h n (List.mem_cons_self _ _)
    have hr : ∀ m ∈ rest, 0 ≤ m.size ∧ m.size ≤ m.bytes.length :=
      fun m hm => h m (List.mem_cons_of_mem _ hm)
    have hR := total_size_nonneg rest (fun m hm => (hr m hm).1)
    simp only [List.map_cons, List.sum_cons, total_size_cons, ih hr,
      nal_bytes_length n hn0 hn1]
    omega

theorem select_pts_spec (l : List xvc_enc_nal_unit) (h : 1 ≤ l.length) :
    ∃ n0, l[0]? = some n0
      ∧ (n0.user_data ≠ 0 ∨ l.length = 1 → select_pts l = some n0.user_data)
      ∧ (n0.user_data = 0 → l.length ≠ 1 →
          2 ≤ l.length ∧ ∃ n1, l[1]? = some n1 ∧ select_pts l = some n1.user_data) := by
  match l, h with
  | [a], _ =>
    refine ⟨a, by simp, ?_, ?_⟩
    · intro _; simp [select_pts]
    · intro _ hne; simp at hne
  | a :: b :: t, _ =>
    refine ⟨a, by simp, ?_, ?_⟩
    · intro hc
      rcases hc with hc | hc
      · simp [select_pts, hc]
      · simp at hc
    · intro h0 _
      refine ⟨by simp, b, by simp, ?_⟩
      simp [select_pts, h0]

theorem select_pts_some (l : List xvc_enc_nal_unit) (h : l ≠ []) :
    ∃ v, select_pts l = some v := by
  have hl : 1 ≤ l.length := by
    cases l with
    | nil => exact absurd rfl h
    | cons a t => simp
  obtain ⟨n0, _, h1, h2⟩ := select_pts_spec l hl
  by_cases hc : n0.user_data ≠ 0 ∨ l.length = 1
  · exact ⟨_, h1 hc⟩
  · push_neg at hc
    obtain ⟨_, n1, _, h3⟩ := h2 hc.1 hc.2
    exact ⟨_, h3⟩

theorem xvc_encode_frame_library_error (ctx : libxvcEncoderContext) (c : FrameCall)
    (h : c.pic.isSome ∧ c.xvc_ret ≠ xvc_enc_return_code.XVC_ENC_OK) :
    xvc_encode_frame ctx c
      = some { ret := AVERROR_EXTERNAL, got_packet := false, pkt := c.pkt, ctx := ctx,
               pict_type := c.pict_type } := by
  unfold xvc_encode_frame
  rw [if_pos h]

theorem xvc_encode_frame_no_units (ctx : libxvcEncoderContext) (c : FrameCall)
    (h : ¬(c.pic.isSome ∧ c.xvc_ret ≠ xvc_enc_return_code.XVC_ENC_OK))
    (h0 : c.nal_units = []) :
    xvc_encode_frame ctx c
      = some { ret := 0, got_packet := false, pkt := c.pkt, ctx := ctx,
               pict_type := c.pict_type } := by
  unfold xvc_encode_frame
  rw [if_neg h]
  simp [h0]

theorem xvc_encode_frame_alloc_error (ctx : libxvcEncoderContext) (c : FrameCall)
    (h : ¬(c.pic.isSome ∧ c.xvc_ret ≠ xvc_enc_return_code.XVC_ENC_OK))
    (h0 : c.nal_units ≠ []) (e : Nat) (he : c.alloc.error = some e) :
    xvc_encode_frame ctx c
      = some { ret := -((e : Int) + 1), got_packet := false, pkt := c.pkt, ctx := ctx,
               pict_type := c.pict_type } := by
  unfold xvc_encode_frame
  rw [if_neg h]
  have hl : c.nal_units.length ≠ 0 := by simpa using h0
  have hneg : -((e : Int) + 1) < 0 := by omega
  simp only [hl, if_false, ff_alloc_packet, he, hneg, if_true]

theorem xvc_encode_frame_packet (ctx : libxvcEncoderContext) (c : FrameCall)
    (h : ¬(c.pic.isSome ∧ c.xvc_ret ≠ xvc_enc_return_code.XVC_ENC_OK))
    (h0 : c.nal_units ≠ []) (hok : nal_units_ok c.nal_units) (he : c.alloc.error = none) :
    ∃ (st : CopyState) (pts : Int),
      select_pts c.nal_units = some pts
      ∧ st.pkt.data = (c.nal_units.map nal_bytes).flatten
      ∧ st.pkt.size = total_size c.nal_units
      ∧ xvc_encode_frame ctx c
        = some { ret := 0, got_packet := true,
                 pkt := { data := st.pkt.data, size := st.pkt.size, pts := pts,
                          dts := ctx.dts - (if ctx.sub_gop_length ≤ 0 then 16
                                            else ctx.sub_gop_length),
                          flags := st.pkt.flags },
                 ctx := { ctx with dts := ctx.dts + 1 },
                 pict_type := st.pict_type } := by
  obtain ⟨hsz, hsum⟩ := hok
  have hnn := total_size_nonneg c.nal_units (fun n hn => (hsz n hn).1)
  have hpay : payload_loop c.nal_units 0 = total_size c.nal_units := by
    rw [payload_loop_eq c.nal_units 0 (fun n hn => (hsz n hn).1) (le_refl 0) (by omega)]
    omega
  obtain ⟨pts, hpts⟩ := select_pts_some c.nal_units h0
  obtain ⟨st, hcopy, hdata, hsize⟩ := copy_loop_spec c.nal_units
    { pkt := { c.pkt with
                data := (List.range (total_size c.nal_units).toNat).map c.alloc.content,
                size := total_size c.nal_units },
      dst := 0, pict_type := c.pict_type } hsz (le_refl 0)
    (by
      show 0 + total_size c.nal_units ≤ _
      simp only [List.length_map, List.length_range]
      omega)
  refine ⟨st, pts, hpts, ?_, hsize, ?_⟩
  · rw [hdata]
    show List.take 0 _ ++ _ ++ List.drop (0 + total_size c.nal_units).toNat _ = _
    rw [List.drop_of_length_le (by simp only [List.length_map, List.length_range]; omega)]
    simp
  · unfold xvc_encode_frame
    rw [if_neg h]
    have hl : c.nal_units.length ≠ 0 := by simpa using h0
    simp only [hl, if_false, ff_alloc_packet, he, hpay, lt_irrefl, hcopy, hpts]

theorem dts_offset_eq (ctx : libxvcEncoderContext) :
    (if ctx.sub_gop_length ≤ 0 then 16 else ctx.sub_gop_length) = dts_offset ctx := by
  unfold dts_offset
  split_ifs <;> first | rfl | omega

theorem xvc_encode_frame_result (ctx : libxvcEncoderContext) (c : FrameCall) (r : FrameResult)
    (h : xvc_encode_frame ctx c = some r) :
    r.ctx.sub_gop_length = ctx.sub_gop_length
    ∧ (r.got_packet = true →
        r.pkt.dts = ctx.dts - dts_offset ctx ∧ r.ctx.dts = ctx.dts + 1
        ∧ select_pts c.nal_units = some r.pkt.pts
        ∧ ¬(c.pic.isSome ∧ c.xvc_ret ≠ xvc_enc_return_code.XVC_ENC_OK)
        ∧ c.nal_units ≠ [] ∧ c.alloc.error = none)
    ∧ (r.got_packet = false →
        r.ctx = ctx
        ∧ ((c.pic.isSome ∧ c.xvc_ret ≠ xvc_enc_return_code.XVC_ENC_OK)
            ∨ c.nal_units = [] ∨ c.alloc.error.isSome)) := by
  by_cases h1 : c.pic.isSome ∧ c.xvc_ret ≠ xvc_enc_return_code.XVC_ENC_OK
  · rw [xvc_encode_frame_library_error ctx c h1] at h
    cases h
    exact ⟨rfl, by simp, fun _ => ⟨rfl, Or.inl h1⟩⟩
  by_cases h2 : c.nal_units = []
  · rw [xvc_encode_frame_no_units ctx c h1 h2] at h
    cases h
    exact ⟨rfl, by simp, fun _ => ⟨rfl, Or.inr (Or.inl h2)⟩⟩
  cases he : c.alloc.error with
  | some e =>
    rw [xvc_encode_frame_alloc_error ctx c h1 h2 e he] at h
    cases h
    exact ⟨rfl, by simp, fun _ => ⟨rfl, Or.inr (Or.inr (by simp))⟩⟩
  | none =>
    unfold xvc_encode_frame at h
    rw [if_neg h1] at h
    have hl : c.nal_units.length ≠ 0 := by simpa using h2
    simp only [hl, if_false, ff_alloc_packet, he, lt_irrefl] at h
    split at h
    · cases h
    · split at h
      · cases h
      · rename_i st hst pts hp
        cases h
        refine ⟨rfl, fun _ => ⟨?_, rfl, hp, h1, h2, rfl⟩, by simp⟩
        show ctx.dts - _ = _
        rw [dts_offset_eq]

theorem xvc_encode_frame_total (ctx : libxvcEncoderContext) (c : FrameCall)
    (hok : nal_units_ok c.nal_units) : ∃ r, xvc_encode_frame ctx c = some r := by
  by_cases h1 : c.pic.isSome ∧ c.xvc_ret ≠ xvc_enc_return_code.XVC_ENC_OK
  · exact ⟨_, xvc_encode_frame_library_error ctx c h1⟩
  by_cases h2 : c.nal_units = []
  · exact ⟨_, xvc_encode_frame_no_units ctx c h1 h2⟩
  cases he : c.alloc.error with
  | some e => exact ⟨_, xvc_encode_frame_alloc_error ctx c h1 h2 e he⟩
  | none =>
    obtain ⟨st, pts, _, _, _, hr⟩ := xvc_encode_frame_packet ctx c h1 h2 hok he
    exact ⟨_, hr⟩

theorem encode_frames_total (calls : List FrameCall) :
    ∀ ctx : libxvcEncoderContext, (∀ c ∈ calls, nal_units_ok c.nal_units) →
      ∃ res, encode_frames ctx calls = some res := by
  induction calls with
  | nil => intro ctx _; exact ⟨_, rfl⟩
  | cons c rest ih =>
    intro ctx h
    obtain ⟨r, hr⟩ := xvc_encode_frame_total ctx c (h c (List.mem_cons_self _ _))
    obtain ⟨res, hres⟩ := ih r.ctx (fun d hd => h d (List.mem_cons_of_mem _ hd))
    refine ⟨(res.1, if r.got_packet then r.pkt :: res.2 else res.2), ?_⟩
    simp only [encode_frames, hr, hres]

theorem encode_frames_dts (calls : List FrameCall) :
    ∀ (ctx ctx1 : libxvcEncoderContext) (pkts : List AVPacket),
      encode_frames ctx calls = some (ctx1, pkts) →
      ctx1.dts = ctx.dts + pkts.length
      ∧ ctx1.sub_gop_length = ctx.sub_gop_length
      ∧ ∀ (k : Nat) (hk : k < pkts.length), pkts[k].dts = ctx.dts + k - dts_offset ctx := by
  induction calls with
  | nil =>
    intro ctx ctx1 pkts h
    simp only [encode_frames, Option.some.injEq, Prod.mk.injEq] at h
    obtain ⟨h1, h2⟩ := h
    subst h1 h2
    exact ⟨by simp, rfl, fun k hk => by simp at hk⟩
  | cons c rest ih =>
    intro ctx ctx1 pkts h
    simp only [encode_frames] at h
    split at h
    · cases h
    · rename_i r hr
      split at h
      · cases h
      · rename_i ctx2 pkts2 hrest
        simp only [Option.some.injEq, Prod.mk.injEq] at h
        obtain ⟨h1, h2⟩ := h
        subst h1
        obtain ⟨i1, i2, i3⟩ := ih r.ctx ctx2 pkts2 hrest
        obtain ⟨f1, f2, f3⟩ := xvc_encode_frame_result ctx c r hr
        have hoff : dts_offset r.ctx = dts_offset ctx := by
          unfold dts_offset; rw [f1]
        cases hg : r.got_packet with
        | false =>
          rw [hg] at h2
          simp only [Bool.false_eq_true, if_false] at h2
          subst h2
          have hctx := (f3 hg).1
          rw [hctx] at i1 i2 i3
          exact ⟨i1, i2, i3⟩
        | true =>
          rw [hg] at h2
          simp only [if_true] at h2
          subst h2
          obtain ⟨g1, g2, _⟩ := f2 hg
          refine ⟨?_, i2.trans f1, ?_⟩
          · rw [i1, g2]; simp only [List.length_cons]; push_cast; omega
          · intro k hk
            cases k with
            | zero => simp only [List.getElem_cons_zero, g1]; push_cast; omega
            | succ j =>
              have hj : j < pkts2.length := by simpa using hk
              simp only [List.getElem_cons_succ]
              rw [i3 j hj, hoff, g2]; push_cast; omega

/-- C4: for a call that is not a library error, with a non-empty array of NAL
units whose sizes are non-negative, backed by their bytes and add up to at most
`INT_MAX`, and a successful allocation: the size passed to `ff_alloc_packet`
is the sum of the sizes, the allocation returns 0 with a packet of that size,
and `xvc_encode_frame` returns 0 with a packet whose size is that sum and
whose data is exactly the concatenation of the units' bytes in array order,
unit `i` occupying the `size_i` bytes from offset `size_0 + ... + size_(i-1)`. -/
theorem C4_packet_is_concatenation (ctx : libxvcEncoderContext) (c : FrameCall)
    (hlib : ¬(c.pic.isSome ∧ c.xvc_ret ≠ xvc_enc_return_code.XVC_ENC_OK))
    (hne : c.nal_units ≠ []) (hok : nal_units_ok c.nal_units)
    (he : c.alloc.error = none) :
    payload_loop c.nal_units 0 = total_size c.nal_units
    ∧ (ff_alloc_packet c.alloc c.pkt (payload_loop c.nal_units 0)).1 = 0
    ∧ (ff_alloc_packet c.alloc c.pkt (payload_loop c.nal_units 0)).2.size
        = total_size c.nal_units
    ∧ ∃ r, xvc_encode_frame ctx c = some r ∧ r.ret = 0 ∧ r.got_packet = true
        ∧ r.pkt.size = total_size c.nal_units
        ∧ (r.pkt.data.length : Int) = total_size c.nal_units
        ∧ r.pkt.data = (c.nal_units.map nal_bytes).flatten
        ∧ ∀ (i : Nat) (hi : i < c.nal_units.length),
            (r.pkt.data.drop (total_size (c.nal_units.take i)).toNat).take
                (c.nal_units[i].size.toNat)
              = nal_bytes c.nal_units[i] := by
  have hnn := total_size_nonneg c.nal_units (fun n hn => (hok.1 n hn).1)
  have hpay : payload_loop c.nal_units 0 = total_size c.nal_units := by
    rw [payload_loop_eq c.nal_units 0 (fun n hn => (hok.1 n hn).1) (le_refl 0)
      (by have := hok.2; omega)]
    omega
  obtain ⟨st, pts, _, hdata, hsize, hr⟩ := xvc_encode_frame_packet ctx c hlib hne hok he
  refine ⟨hpay, by simp [ff_alloc_packet, he], by simp [ff_alloc_packet, he, hpay],
    _, hr, rfl, rfl, hsize, ?_, hdata, ?_⟩
  · show ((st.pkt.data.length : Nat) : Int) = _
    rw [hdata, List.length_flatten, nal_bytes_total c.nal_units hok.1]
    omega
  · intro i hi
    show (st.pkt.data.drop _).take _ = _
    have hi2 : i < (c.nal_units.map nal_bytes).length := by simpa using hi
    have hs := flatten_slice (c.nal_units.map nal_bytes) i hi2
    have hin := hok.1 _ (List.getElem_mem hi)
    rw [← List.map_take, nal_bytes_total (c.nal_units.take i)
      (fun n hn => hok.1 n (List.mem_of_mem_take hn)), List.getElem_map,
      nal_bytes_length _ hin.1 hin.2] at hs
    rw [hdata]
    exact hs

/-- A concrete instance: the units `[1, 2, 3]` and `[4, 5]` give the packet
data `[1, 2, 3, 4, 5]` of size 5. -/
theorem C4_packet_is_concatenation_witness :
    ∃ r, xvc_encode_frame default_context call_ab = some r
      ∧ r.pkt.size = 5 ∧ r.pkt.data = [1, 2, 3, 4, 5] := by
  obtain ⟨_, _, _, r, hr, _, _, hsize, _, hdata, _⟩ :=
    C4_packet_is_concatenation default_context call_ab (by decide) (by decide)
      (by decide) rfl
  exact ⟨r, hr, hsize, hdata⟩

/-- C5: a call of `xvc_encode_frame` that stores 1 in `*got_packet` stamps the
packet with `dts = ctx->dts - offset`, offset being `sub_gop_length` when
positive and 16 otherwise, and increases `ctx->dts` by 1; a call that does not
(library error on a frame, no NAL unit, failed allocation) leaves `ctx->dts`
as it was.
A run over well-formed calls never faults, and in every run the context ends
at `dts + number of packets`, the `k`-th packet has `dts + k - offset`,
consecutive packets differ by exactly 1, and from `dts = 0` the `k`-th packet
has `k - offset`. -/
theorem C5_dts_sequence (ctx : libxvcEncoderContext) (calls : List FrameCall) :
    (∀ c r, xvc_encode_frame ctx c = some r →
        (r.got_packet = true →
          r.pkt.dts = ctx.dts - dts_offset ctx ∧ r.ctx.dts = ctx.dts + 1)
        ∧ (r.got_packet = false → r.ctx.dts = ctx.dts)
        ∧ ((c.pic.isSome ∧ c.xvc_ret ≠ xvc_enc_return_code.XVC_ENC_OK)
            ∨ c.nal_units = [] ∨ c.alloc.error.isSome → r.got_packet = false))
    ∧ ((∀ c ∈ calls, nal_units_ok c.nal_units) →
        ∃ res, encode_frames ctx calls = some res)
    ∧ (∀ ctx1 pkts, encode_frames ctx calls = some (ctx1, pkts) →
        ctx1.dts = ctx.dts + pkts.length
        ∧ (∀ (k : Nat) (hk : k < pkts.length), pkts[k].dts = ctx.dts + k - dts_offset ctx)
        ∧ (∀ (k : Nat) (hk : k + 1 < pkts.length),
            pkts[k + 1].dts = (pkts.get ⟨k, Nat.lt_of_succ_lt hk⟩).dts + 1)
        ∧ (ctx.dts = 0 →
            ∀ (k : Nat) (hk : k < pkts.length), pkts[k].dts = k - dts_offset ctx)) := by
  refine ⟨?_, encode_frames_total calls ctx, ?_⟩
  · intro c r h
    obtain ⟨_, f2, f3⟩ := xvc_encode_frame_result ctx c r h
    refine ⟨fun hg => ⟨(f2 hg).1, (f2 hg).2.1⟩, fun hg => by rw [(f3 hg).1], ?_⟩
    intro hcase
    cases hg : r.got_packet with
    | false => rfl
    | true =>
      obtain ⟨_, _, _, n1, n2, n3⟩ := f2 hg
      rcases hcase with hc | hc | hc
      · exact absurd hc n1
      · exact absurd hc n2
      · rw [n3] at hc; simp at hc
  · intro ctx1 pkts h
    obtain ⟨h1, _, h3⟩ := encode_frames_dts calls ctx ctx1 pkts h
    refine ⟨h1, h3, ?_, ?_⟩
    · intro k hk
      have a := h3 (k + 1) hk
      have b := h3 k (Nat.lt_of_succ_lt hk)
      simp only [List.get_eq_getElem]
      rw [a, b]; push_cast; omega
    · intro h0 k hk
      rw [h3 k hk, h0]; omega

/-- A concrete instance: from `dts = 0` with the default `sub_gop_length`, a run
of a packet call, an empty call and a packet call emits packets with DTS -16
and -15 and leaves `dts = 2`. -/
theorem C5_dts_sequence_witness :
    ∃ res, encode_frames default_context [call_ab, call_none, call_ab] = some res
      ∧ res.1.dts = 2 ∧ res.2.map (fun p => p.dts) = [-16, -15] := by
  obtain ⟨res, hres⟩ :=
    (C5_dts_sequence default_context [call_ab, call_none, call_ab]).2.1 (by decide)
  refine ⟨res, hres, ?_⟩
  have hd : encode_frames default_context [call_ab, call_none, call_ab]
      = some ((encode_frames default_context [call_ab, call_none, call_ab]).get (by decide)) :=
    by simp
  rw [hd] at hres
  cases hres
  decide

theorem xvc_encode_frame_after_alloc (ctx : libxvcEncoderContext) (c : FrameCall)
    (h1 : ¬(c.pic.isSome ∧ c.xvc_ret ≠ xvc_enc_return_code.XVC_ENC_OK))
    (h2 : c.nal_units ≠ []) (he : c.alloc.error = none) (pts : Int)
    (hp : select_pts c.nal_units = some pts) :
    xvc_encode_frame ctx c
      = (copy_loop c.nal_units
          { pkt := (ff_alloc_packet c.alloc c.pkt (payload_loop c.nal_units 0)).2,
            dst := 0, pict_type := c.pict_type }).map
          (fun st =>
            { ret := 0, got_packet := true,
              pkt := { data := st.pkt.data, size := st.pkt.size, pts := pts,
                       dts := ctx.dts - dts_offset ctx, flags := st.pkt.flags },
              ctx := { ctx with dts := ctx.dts + 1 },
              pict_type := st.pict_type }) := by
  unfold xvc_encode_frame
  rw [if_neg h1]
  have hl : c.nal_units.length ≠ 0 := by simpa using h2
  simp only [hl, if_false, ff_alloc_packet, he, lt_irrefl, hp, dts_offset_eq]
  cases copy_loop c.nal_units
      { pkt := { data := (List.range (payload_loop c.nal_units 0).toNat).map c.alloc.content,
                 size := payload_loop c.nal_units 0, pts := c.pkt.pts, dts := c.pkt.dts,
                 flags := c.pkt.flags },
        dst := 0, pict_type := c.pict_type } <;> rfl

/-- C6: for an array of at least one NAL unit, the PTS expression reads
`nal_units[0]` and yields its `user_data` when that is non-zero or when the
array has exactly one unit; otherwise the array has at least two units,
`nal_units[1]` is read inside the array and its `user_data` is the result, so
no read falls outside the array.  A call of `xvc_encode_frame` on such an
array, without library error and with a successful allocation, faults only
when a `memcpy` of its copy loop does, never through the PTS reads; on a
well-formed array it returns 0, stores 1 in `*got_packet` and sets `pkt->pts`
to the value just described; and every call that emits a packet has stored
that value in `pkt->pts`. -/
theorem C6_pts_selection_in_bounds (l : List xvc_enc_nal_unit) (h : 1 ≤ l.length) :
    (∃ n0, l[0]? = some n0
      ∧ (n0.user_data ≠ 0 ∨ l.length = 1 → select_pts l = some n0.user_data)
      ∧ (n0.user_data = 0 → l.length ≠ 1 →
          2 ≤ l.length ∧ ∃ n1, l[1]? = some n1 ∧ select_pts l = some n1.user_data))
    ∧ (∃ v, select_pts l = some v)
    ∧ (∀ ctx c r, c.nal_units = l → xvc_encode_frame ctx c = some r →
        r.got_packet = true → select_pts l = some r.pkt.pts)
    ∧ (∀ (ctx : libxvcEncoderContext) (c : FrameCall), c.nal_units = l →
        ¬(c.pic.isSome ∧ c.xvc_ret ≠ xvc_enc_return_code.XVC_ENC_OK) →
        c.alloc.error = none →
        (xvc_encode_frame ctx c = none ↔
          copy_loop l
            { pkt := (ff_alloc_packet c.alloc c.pkt (payload_loop l 0)).2,
              dst := 0, pict_type := c.pict_type } = none))
    ∧ (∀ (ctx : libxvcEncoderContext) (c : FrameCall), c.nal_units = l →
        ¬(c.pic.isSome ∧ c.xvc_ret ≠ xvc_enc_return_code.XVC_ENC_OK) →
        c.alloc.error = none → nal_units_ok l →
        ∃ r n0, xvc_encode_frame ctx c = some r ∧ r.ret = 0 ∧ r.got_packet = true
          ∧ l[0]? = some n0
          ∧ (n0.user_data ≠ 0 ∨ l.length = 1 → r.pkt.pts = n0.user_data)
          ∧ (n0.user_data = 0 → l.length ≠ 1 →
              2 ≤ l.length ∧ ∃ n1, l[1]? = some n1 ∧ r.pkt.pts = n1.user_data)) := by
  have hne : l ≠ [] := by
    intro hl
    rw [hl] at h
    simp at h
  obtain ⟨n0, hn0, ha, hb⟩ := select_pts_spec l h
  refine ⟨⟨n0, hn0, ha, hb⟩, select_pts_some l hne, ?_, ?_, ?_⟩
  · intro ctx c r hc hr hg
    rw [← hc]
    exact (xvc_encode_frame_result ctx c r hr).2.1 hg |>.2.2.1
  · intro ctx c hc h1 he
    subst hc
    obtain ⟨v, hv⟩ := select_pts_some c.nal_units hne
    rw [xvc_encode_frame_after_alloc ctx c h1 hne he v hv]
    simp only [Option.map_eq_none']
  · intro ctx c hc h1 he hok
    subst hc
    obtain ⟨st, pts, hpts, _, _, hr⟩ := xvc_encode_frame_packet ctx c h1 hne hok he
    refine ⟨_, n0, hr, rfl, rfl, hn0, ?_, ?_⟩
    · intro hcase
      have := ha hcase
      rw [hpts] at this
      exact Option.some.inj this
    · intro hz hlen
      obtain ⟨h2, n1, hn1, hs⟩ := hb hz hlen
      rw [hpts] at hs
      exact ⟨h2, n1, hn1, Option.some.inj hs⟩

/-- A concrete instance: for a frame with the units `nal_a` (time stamp 0) and
`nal_b` (time stamp 7), `xvc_encode_frame` emits a packet with `pts = 7`, the
time stamp of the second unit. -/
theorem C6_pts_selection_in_bounds_witness :
    ∃ r, xvc_encode_frame default_context call_ab = some r
      ∧ r.got_packet = true ∧ r.pkt.pts = 7 := by
  obtain ⟨r, n0, hr, _, hg, h0, _, h2⟩ :=
    (C6_pts_selection_in_bounds [nal_a, nal_b] (by decide)).2.2.2.2
      default_context call_ab rfl (by decide) rfl (by decide)
  have hn : n0 = nal_a := by
    have : some nal_a = some n0 := h0
    cases this; rfl
  subst hn
  obtain ⟨_, n1, h1, h3⟩ := h2 rfl (by decide)
  have hn1 : n1 = nal_b := by
    have : some nal_b = some n1 := h1
    cases this; rfl
  subst hn1
  exact ⟨r, hr, hg, h3⟩
